import Mathlib

/-!
Verification of the blockzilla repository specification claims.

This file shallowly embeds the parts of the blockzilla source relevant to the
frozen claims: the metadata schema dispatch (car-reader/src/metadata_decoder.rs),
the postcard frame reader (blockzilla-format/src/reader.rs), the compact block
emission loop (optimize-car-archive/src/compact.rs), the key-registry counting
pass finalization (optimize-car-archive/src/build_registry.rs), the blockhash
registry (blockzilla-format/src/blockhash_registry.rs), the CAR block-group
reader (car-reader/src/reader.rs), the token-balance compaction
(blockzilla-format/src/compact/meta.rs), and the log-stream compactor
(blockzilla-format/src/compact/log.rs and blockzilla-format/src/program_logs).

Machine bytes are modelled as natural numbers below 256, byte arrays as lists,
fallible Rust code as Except, and panics as a dedicated error value.
-/

/-! ## Metadata decoder (car-reader/src/metadata_decoder.rs) -/

/-- Constant `BINCODE_EPOCH_CUTOFF` from car-reader/src/metadata_decoder.rs line 8. -/
def BINCODE_EPOCH_CUTOFF : Nat := 148

/-- Function `slot_to_epoch` from car-reader/src/metadata_decoder.rs: `slot / 432000`. -/
def slot_to_epoch (slot : Nat) : Nat := slot / 432000

/-- Which wire schema `decode_transaction_status_meta` uses for the raw bytes. -/
inductive MetaSchema where
  | bincode
  | protobuf
deriving DecidableEq, Repr

/-- Schema selection performed by `decode_transaction_status_meta`
(car-reader/src/metadata_decoder.rs lines 119-137): bincode when
`slot_to_epoch slot < BINCODE_EPOCH_CUTOFF`, protobuf otherwise. -/
def meta_schema_for (slot : Nat) : MetaSchema :=
  if slot_to_epoch slot < BINCODE_EPOCH_CUTOFF then .bincode else .protobuf

/-- Shallow embedding of `decode_transaction_status_meta`: the two concrete
decoders (wincode deserialization of `StoredTransactionStatusMeta`, and prost
`merge`) are passed as parameters; the function dispatches between them on the
epoch of the owning slot and tags the result with the schema that was used. -/
def decode_transaction_status_meta (μ : Type)
    (legacyDecode protoDecode : List Nat → Option μ)
    (slot : Nat) (bytes : List Nat) : Option (MetaSchema × μ) :=
  if slot_to_epoch slot < BINCODE_EPOCH_CUTOFF then
    (legacyDecode bytes).map (fun m => (MetaSchema.bincode, m))
  else
    (protoDecode bytes).map (fun m => (MetaSchema.protobuf, m))

/-! ## Postcard framed reader (blockzilla-format/src/reader.rs) -/

/-- Little-endian `u32` from four bytes, as in `u32::from_le_bytes`. -/
def u32_from_le_bytes (b0 b1 b2 b3 : Nat) : Nat :=
  b0 + b1 * 256 + b2 * 65536 + b3 * 16777216

/-- Shallow embedding of `PostcardFramedReader::read`
(blockzilla-format/src/reader.rs lines 22-48) over a byte-list stream.
Reading the 4-byte length with fewer than 4 bytes available gives
`io::ErrorKind::UnexpectedEof`, which the source maps to `Ok(None)`; a short
read of the payload is also mapped to `Ok(None)`; a postcard decode failure is
an error. On success the value and the remaining stream are returned. -/
def postcard_framed_read (α : Type) (decode : List Nat → Option α)
    (s : List Nat) : Except String (Option (α × List Nat)) :=
  match s with
  | b0 :: b1 :: b2 :: b3 :: rest =>
    let len := u32_from_le_bytes b0 b1 b2 b3
    if rest.length < len then
      .ok none
    else
      match decode (rest.take len) with
      | some v => .ok (some (v, rest.drop len))
      | none => .error "postcard decode"
  | _ => .ok none

/-! ## Compact block emission (optimize-car-archive/src/compact.rs) -/

/-- Wrapping `u32` addition, as in `u32::wrapping_add`. -/
def u32_wrapping_add (a b : Nat) : Nat := (a + b) % 4294967296

/-- Block node metadata fields used by `compact_process_block`
(decoded from the CAR block node). -/
structure BlockNodeMeta where
  parent_slot : Option Nat
  blocktime : Option Int
  block_height : Option Nat
deriving DecidableEq, Repr

/-- Decoded CAR block node fields used by `compact_process_block`. -/
structure BlockNode where
  slot : Nat
  meta : BlockNodeMeta
deriving DecidableEq, Repr

/-- Compact block header, from blockzilla-format (struct `CompactBlockHeader`)
as assembled in optimize-car-archive/src/compact.rs lines 432-442. -/
structure CompactBlockHeader where
  slot : Nat
  parent_slot : Nat
  blockhash : Nat
  previous_blockhash : Nat
  block_time : Option Int
  block_height : Option Nat
deriving DecidableEq, Repr

/-- Compact block record: header plus the per-transaction payloads (the
transaction payload type is abstract here; the claim is about the header). -/
structure CompactBlockRecord (τ : Type) where
  header : CompactBlockHeader
  txs : List τ
deriving DecidableEq, Repr

/-- Header-and-record assembly of `compact_process_block`
(optimize-car-archive/src/compact.rs lines 414-544): the block decodes to a
block node, the transactions of the group are rewritten (their collective
outcome is the `txs` argument, an error aborting the whole group), and the
blockhash ids are positional: `this_blockhash_id = block_i`,
`previous_blockhash_id = block_i.saturating_sub(1)`. -/
def compact_process_block (τ ε : Type) (block : BlockNode)
    (txs : Except ε (List τ)) (block_i : Nat) :
    Except ε (CompactBlockRecord τ) :=
  match txs with
  | .error e => .error e
  | .ok ts =>
    .ok { header :=
            { slot := block.slot
              parent_slot := block.meta.parent_slot.getD 0
              blockhash := block_i
              previous_blockhash := block_i - 1
              block_time := block.meta.blocktime
              block_height := block.meta.block_height }
          txs := ts }

/-- Emission loop of `run` (optimize-car-archive/src/compact.rs lines 186-209):
`block_count` starts at 0 and is advanced with `wrapping_add(1)` after each
group; each group is processed with the current counter. -/
def compact_run_go (τ ε : Type)
    (groups : List (BlockNode × Except ε (List τ))) (block_count : Nat) :
    Except ε (List (CompactBlockRecord τ)) :=
  match groups with
  | [] => .ok []
  | (b, txs) :: gs =>
    match compact_process_block τ ε b txs block_count with
    | .error e => .error e
    | .ok r =>
      match compact_run_go τ ε gs (u32_wrapping_add block_count 1) with
      | .error e => .error e
      | .ok rs => .ok (r :: rs)

/-- Whole encoding pass over the stream of groups, starting from counter 0. -/
def compact_run (τ ε : Type)
    (groups : List (BlockNode × Except ε (List τ))) :
    Except ε (List (CompactBlockRecord τ)) :=
  compact_run_go τ ε groups 0

/-! ## Key registry counting pass (optimize-car-archive/src/build_registry.rs) -/

/-- Lexicographic comparison of equal-length byte arrays, as `[u8; 32]::cmp`. -/
def bytesLe : List Nat → List Nat → Bool
  | [], [] => true
  | [], _ :: _ => true
  | _ :: _, [] => false
  | a :: as_, b :: bs => if a < b then true else if a > b then false else bytesLe as_ bs

/-- Sort comparator of the registry finalization
(optimize-car-archive/src/build_registry.rs line 58):
`cb.cmp(ca).then_with(|| ka.cmp(kb))`, i.e. usage count descending with ties
broken by key bytes ascending. -/
def registryCmpLe (a b : List Nat × Nat) : Bool :=
  if a.2 = b.2 then bytesLe a.1 b.1 else b.2 < a.2

/-- Finalization of the counting pass
(optimize-car-archive/src/build_registry.rs lines 54-67): collect the counted
(key, count) pairs, sort them with `registryCmpLe`, and keep the keys. The
resulting list is exactly what `write_registry` persists, byte for byte. -/
def registry_finalize (counts : List (List Nat × Nat)) : List (List Nat) :=
  (counts.mergeSort registryCmpLe).map Prod.fst

/-- Compute-budget program key `ComputeBudget111111111111111111111111111111`
(base58-decoded to its 32 raw bytes). -/
def CB_KEY : List Nat :=
  [3, 6, 70, 111, 229, 33, 23, 50, 255, 236, 173, 186, 114, 195, 155, 231,
   188, 140, 229, 187, 197, 247, 18, 107, 44, 67, 155, 58, 64, 0, 0, 0]


/-! ## Blockhash registry (blockzilla-format/src/blockhash_registry.rs) -/

/-- Functional map from a 32-byte hash to its signed id, standing for the
`GxHashMap<[u8; 32], i32>` index of the blockhash registry. -/
def BhIndex : Type := List Nat → Option Int

/-- Insertion into the index map; a later insert of the same key overwrites
the earlier one, as `HashMap::insert` does. -/
def bhInsert (m : BhIndex) (k : List Nat) (v : Int) : BhIndex :=
  fun x => if x = k then some v else m x

/-- Constant `PREV_TAIL_LEN` (blockzilla-format/src/blockhash_registry.rs line 4). -/
def PREV_TAIL_LEN : Nat := 200

/-- Blockhash registry state: current-epoch hashes, previous-epoch tail
(oldest to newest) and the signed index. -/
structure BlockhashRegistry where
  hashes : List (List Nat)
  prev_tail : List (List Nat)
  index : BhIndex

/-- Constructor `BlockhashRegistry::new`
(blockzilla-format/src/blockhash_registry.rs lines 26-58): the tail is
truncated in front to at most `PREV_TAIL_LEN` entries, the tail hashes are
inserted with negative ids (newest = -1), then the current-epoch hashes are
inserted with their positions, overwriting any tail entry for the same hash. -/
def blockhash_registry_new (hashes prev_tail0 : List (List Nat)) :
    BlockhashRegistry :=
  let prev_tail :=
    if prev_tail0.length > PREV_TAIL_LEN then
      prev_tail0.drop (prev_tail0.length - PREV_TAIL_LEN)
    else prev_tail0
  let m := prev_tail.length
  let idx1 := prev_tail.enum.foldl
    (fun acc p => bhInsert acc p.2 (-(Int.ofNat (m - p.1)))) (fun _ => none)
  let idx2 := hashes.enum.foldl
    (fun acc p => bhInsert acc p.2 (Int.ofNat p.1)) idx1
  { hashes := hashes, prev_tail := prev_tail, index := idx2 }

/-- Lookup `BlockhashRegistry::lookup`: consult the index. -/
def blockhash_registry_lookup (r : BlockhashRegistry) (h : List Nat) :
    Option Int :=
  r.index h

/-- Resolution `BlockhashRegistry::get`
(blockzilla-format/src/blockhash_registry.rs lines 73-85): nonnegative ids
index `hashes`; a negative id `-k` resolves to the k-th newest tail entry. -/
def blockhash_registry_get (r : BlockhashRegistry) (id : Int) :
    Option (List Nat) :=
  if 0 ≤ id then r.hashes.get? id.toNat
  else
    let k := (-id).toNat
    if k = 0 ∨ k > r.prev_tail.length then none
    else r.prev_tail.get? (r.prev_tail.length - k)


/-! ## Compact transaction encoding
(optimize-car-archive/src/compact.rs and blockzilla-format/src/compact/tx.rs) -/

/-- Message header (3 bytes), copied verbatim by both encoders. -/
structure CompactMessageHeader where
  num_required_signatures : Nat
  num_readonly_signed_accounts : Nat
  num_readonly_unsigned_accounts : Nat
deriving DecidableEq, Repr

/-- Compiled instruction, passed through unchanged by both encoders. -/
structure CompactInstruction where
  program_id_index : Nat
  accounts : List Nat
  data : List Nat
deriving DecidableEq, Repr

/-- Enum `CompactRecentBlockhash` (blockzilla-format/src/compact/tx.rs
lines 50-56): a signed registry id, or the 32 original bytes inline. -/
inductive CompactRecentBlockhash where
  | id (i : Int)
  | nonce (h : List Nat)
deriving DecidableEq, Repr

/-- Address-table lookup with the table key replaced by its registry id. -/
structure CompactAddressTableLookup where
  account_key : Nat
  writable_indexes : List Nat
  readonly_indexes : List Nat
deriving DecidableEq, Repr

/-- Input legacy message (solana `Message`): raw 32-byte account keys and a
raw recent blockhash. -/
structure LegacyMessageIn where
  header : CompactMessageHeader
  account_keys : List (List Nat)
  recent_blockhash : List Nat
  instructions : List CompactInstruction
deriving DecidableEq, Repr

/-- Input V0 message (solana `v0::Message`). -/
structure V0AddressTableLookupIn where
  account_key : List Nat
  writable_indexes : List Nat
  readonly_indexes : List Nat
deriving DecidableEq, Repr

/-- Input V0 message body. -/
structure V0MessageIn where
  header : CompactMessageHeader
  account_keys : List (List Nat)
  recent_blockhash : List Nat
  instructions : List CompactInstruction
  address_table_lookups : List V0AddressTableLookupIn
deriving DecidableEq, Repr

/-- Input versioned message. -/
inductive VersionedMessageIn where
  | legacy (m : LegacyMessageIn)
  | v0 (m : V0MessageIn)
deriving DecidableEq, Repr

/-- Input versioned transaction: signatures plus message. -/
structure VersionedTransactionIn where
  signatures : List (List Nat)
  message : VersionedMessageIn
deriving DecidableEq, Repr

/-- Compact legacy message as built by the optimizer encoding pass
(optimize-car-archive/src/compact.rs lines 333-338): the recent-blockhash
field is the `CompactRecentBlockhash` enum. -/
structure OccCompactLegacyMessage where
  header : CompactMessageHeader
  account_keys : List Nat
  recent_blockhash : CompactRecentBlockhash
  instructions : List CompactInstruction
deriving DecidableEq, Repr

/-- Compact V0 message as built by the optimizer encoding pass. -/
structure OccCompactV0Message where
  header : CompactMessageHeader
  account_keys : List Nat
  recent_blockhash : CompactRecentBlockhash
  instructions : List CompactInstruction
  address_table_lookups : List CompactAddressTableLookup
deriving DecidableEq, Repr

/-- Compact message union of the optimizer encoding pass. -/
inductive OccCompactMessage where
  | legacy (m : OccCompactLegacyMessage)
  | v0 (m : OccCompactV0Message)
deriving DecidableEq, Repr

/-- Compact transaction of the optimizer encoding pass. -/
structure OccCompactTransaction where
  signatures : List (List Nat)
  message : OccCompactMessage
deriving DecidableEq, Repr

/-- Map every 32-byte key through the key-registry lookup; a missing key is
the error `pubkey missing from registry`. -/
def occMapAccountKeys (registry : List Nat → Option Nat)
    (keys : List (List Nat)) : Except String (List Nat) :=
  match keys with
  | [] => .ok []
  | k :: ks =>
    match registry k with
    | none => .error "pubkey missing from registry"
    | some i =>
      match occMapAccountKeys registry ks with
      | .error e => .error e
      | .ok is_ => .ok (i :: is_)

/-- Map the address-table lookups through the registry; a missing table key is
the error `lookup table key missing from registry`. -/
def occMapLookups (registry : List Nat → Option Nat)
    (ls : List V0AddressTableLookupIn) :
    Except String (List CompactAddressTableLookup) :=
  match ls with
  | [] => .ok []
  | l :: rest =>
    match registry l.account_key with
    | none => .error "lookup table key missing from registry"
    | some i =>
      match occMapLookups registry rest with
      | .error e => .error e
      | .ok cs => .ok ({ account_key := i,
                         writable_indexes := l.writable_indexes,
                         readonly_indexes := l.readonly_indexes } :: cs)

/-- Function `to_compact_transaction` of the optimizer encoding pass
(optimize-car-archive/src/compact.rs lines 282-412): account keys and lookup
table keys are replaced by registry ids (a miss is fatal), the recent
blockhash must be 32 bytes, and its registry lookup encodes a hit as `Id` and
a miss as an inline `Nonce` for both message variants. -/
def occ_to_compact_transaction (registry : List Nat → Option Nat)
    (bh_index : List Nat → Option Int) (vtx : VersionedTransactionIn) :
    Except String OccCompactTransaction :=
  match vtx.message with
  | .legacy m =>
    match occMapAccountKeys registry m.account_keys with
    | .error e => .error e
    | .ok keys =>
      if m.recent_blockhash.length ≠ 32 then .error "blockhash len != 32"
      else
        let rb := match bh_index m.recent_blockhash with
          | some i => CompactRecentBlockhash.id i
          | none => CompactRecentBlockhash.nonce m.recent_blockhash
        .ok { signatures := vtx.signatures
              message := .legacy { header := m.header, account_keys := keys,
                                   recent_blockhash := rb,
                                   instructions := m.instructions } }
  | .v0 m =>
    match occMapAccountKeys registry m.account_keys with
    | .error e => .error e
    | .ok keys =>
      if m.recent_blockhash.length ≠ 32 then .error "blockhash len != 32"
      else
        let rb := match bh_index m.recent_blockhash with
          | some i => CompactRecentBlockhash.id i
          | none => CompactRecentBlockhash.nonce m.recent_blockhash
        match occMapLookups registry m.address_table_lookups with
        | .error e => .error e
        | .ok ls =>
          .ok { signatures := vtx.signatures
                message := .v0 { header := m.header, account_keys := keys,
                                 recent_blockhash := rb,
                                 instructions := m.instructions,
                                 address_table_lookups := ls } }

/-- Compact legacy message of the feature-gated duplicate in
blockzilla-format/src/compact/tx.rs (lines 36-41): there the recent-blockhash
field is a bare `i32` id and cannot carry a nonce. -/
structure BfCompactLegacyMessage where
  header : CompactMessageHeader
  account_keys : List Nat
  recent_blockhash : Int
  instructions : List CompactInstruction
deriving DecidableEq, Repr

/-- Compact V0 message of the blockzilla-format duplicate. -/
structure BfCompactV0Message where
  header : CompactMessageHeader
  account_keys : List Nat
  recent_blockhash : CompactRecentBlockhash
  instructions : List CompactInstruction
  address_table_lookups : List CompactAddressTableLookup
deriving DecidableEq, Repr

/-- Compact message union of the blockzilla-format duplicate. -/
inductive BfCompactMessage where
  | legacy (m : BfCompactLegacyMessage)
  | v0 (m : BfCompactV0Message)
deriving DecidableEq, Repr

/-- Compact transaction of the blockzilla-format duplicate. -/
structure BfCompactTransaction where
  signatures : List (List Nat)
  message : BfCompactMessage
deriving DecidableEq, Repr

/-- Reinterpretation `id as u32` of an `i32` value (two-s complement cast). -/
def i32_as_u32 (i : Int) : Nat := (i % 4294967296).toNat

/-- Function `to_compact_transaction` from
blockzilla-format/src/compact/tx.rs lines 68-210 (feature `solana`): in the
legacy branch a recent-blockhash miss returns the error
`recent_blockhash missing from blockhash registry` (lines 103-116); in the V0
branch the `ok_or_else(Nonce).map_err(anyhow)` chain also turns a miss into an
error (lines 161-166), and a hit is stored as `Id(id as u32)`. -/
def bf_to_compact_transaction (registry : List Nat → Option Nat)
    (bh_index : List Nat → Option Int) (vtx : VersionedTransactionIn) :
    Except String BfCompactTransaction :=
  match vtx.message with
  | .legacy m =>
    match occMapAccountKeys registry m.account_keys with
    | .error e => .error e
    | .ok keys =>
      if m.recent_blockhash.length ≠ 32 then .error "blockhash len != 32"
      else
        match bh_index m.recent_blockhash with
        | none => .error "recent_blockhash missing from blockhash registry"
        | some i =>
          .ok { signatures := vtx.signatures
                message := .legacy { header := m.header, account_keys := keys,
                                     recent_blockhash := i,
                                     instructions := m.instructions } }
  | .v0 m =>
    match occMapAccountKeys registry m.account_keys with
    | .error e => .error e
    | .ok keys =>
      if m.recent_blockhash.length ≠ 32 then .error "blockhash len != 32"
      else
        match bh_index m.recent_blockhash with
        | none =>
          .error "recent_blockhash missing from blockhash registry or invalid nonce"
        | some i =>
          match occMapLookups registry m.address_table_lookups with
          | .error e => .error e
          | .ok ls =>
            .ok { signatures := vtx.signatures
                  message := .v0 { header := m.header, account_keys := keys,
                                   recent_blockhash := .id (Int.ofNat (i32_as_u32 i)),
                                   instructions := m.instructions,
                                   address_table_lookups := ls } }


/-! ## Base58 and pubkey text (bs58 crate and solana_pubkey, as used by the
counting pass, the token-balance compactor and the log compactor) -/

/-- Base58 alphabet used by bs58 (Bitcoin alphabet). -/
def base58Alphabet : List Char :=
  "123456789ABCDEFGHJKLMNPQRSTUVWXYZabcdefghijkmnopqrstuvwxyz".data

/-- Value of one base58 digit, or `none` for a character outside the alphabet. -/
def base58DigitVal (c : Char) : Option Nat :=
  base58Alphabet.indexOf? c

/-- Numeric value of a base58 digit string, least significant digit first. -/
def base58Value : List Char → Option Nat
  | [] => some 0
  | c :: cs =>
    match base58DigitVal c, base58Value cs with
    | some d, some v => some (v * 58 + d)
    | _, _ => none

/-- Big-endian minimal byte representation, with structural fuel (the fuel
never runs out because `n / 256 < n` for positive `n`). -/
def natToBytesBEGo : Nat → Nat → List Nat
  | 0, _ => []
  | _ + 1, 0 => []
  | fuel + 1, n + 1 => natToBytesBEGo fuel ((n + 1) / 256) ++ [(n + 1) % 256]

/-- Big-endian minimal byte representation of a natural number. -/
def natToBytesBE (n : Nat) : List Nat := natToBytesBEGo n n

/-- Count of leading `1` characters (each stands for one leading zero byte). -/
def countLeadingOnes : List Char → Nat
  | [] => 0
  | c :: cs => if c = Char.ofNat 49 then countLeadingOnes cs + 1 else 0

/-- Base58 decoding as in the bs58 crate: leading `1` characters become zero
bytes, the rest is interpreted as a big-endian base-58 number. -/
def base58Decode (s : List Char) : Option (List Nat) :=
  let k := countLeadingOnes s
  match base58Value (s.reverse) with
  | none => none
  | some v => some (List.replicate k 0 ++ natToBytesBE v)

/-- Parse `Pubkey::from_str`: at most 44 characters, base58 decodes, and the
result is exactly 32 bytes. -/
def pubkey_from_str (s : List Char) : Option (List Nat) :=
  if s.length > 44 then none
  else
    match base58Decode s with
    | none => none
    | some b => if b.length = 32 then some b else none

/-- Base58 digit character for a value below 58. -/
def base58DigitChar (d : Nat) : Char := base58Alphabet.getD d (Char.ofNat 49)

/-- Base58 digit string of a positive number, with structural fuel. -/
def natToBase58Go : Nat → Nat → List Char
  | 0, _ => []
  | _ + 1, 0 => []
  | fuel + 1, n + 1 =>
    natToBase58Go fuel ((n + 1) / 58) ++ [base58DigitChar ((n + 1) % 58)]

/-- Base58 digit string of a positive number (most significant first). -/
def natToBase58 (n : Nat) : List Char := natToBase58Go n n

/-- Number of leading zero bytes. -/
def countLeadingZeroBytes : List Nat → Nat
  | [] => 0
  | b :: bs => if b = 0 then countLeadingZeroBytes bs + 1 else 0

/-- Big-endian value of a byte list. -/
def bytesValueBE : List Nat → Nat
  | [] => 0
  | b :: bs => bytesValueBE bs + b * 256 ^ bs.length

/-- Base58 encoding as in the bs58 crate (used by `Pubkey`-s `Display`):
one `1` per leading zero byte, then the base58 digits of the value. -/
def base58Encode (b : List Nat) : List Char :=
  List.replicate (countLeadingZeroBytes b) (Char.ofNat 49) ++
    natToBase58 (bytesValueBE b)

/-! ## Token balance compaction (blockzilla-format/src/compact/meta.rs) and
token-balance counting (optimize-car-archive/src/build_registry.rs) -/

/-- Rust `str::parse::<u64>`: optional leading plus sign, then at least one
decimal digit; overflow past `u64::MAX` is an error. -/
def rustParseU64 (s : List Char) : Option Nat :=
  let body := match s with
    | c :: cs => if c = Char.ofNat 43 then cs else s
    | [] => s
  if body = [] then none
  else
    let step := fun (acc : Option Nat) (c : Char) =>
      match acc with
      | none => none
      | some v =>
        if c.isDigit then
          let v2 := v * 10 + (c.toNat - 48)
          if v2 < 18446744073709551616 then some v2 else none
        else none
    body.foldl step (some 0)

/-- Errors of the token-balance compactor: an `anyhow` error message, or a
panic raised by `KeyIndex::lookup_unchecked` on a key that is absent from the
registry. -/
inductive CompactErr where
  | err (msg : String)
  | panic (msg : String)
deriving DecidableEq, Repr

/-- Lookup `KeyIndex::lookup_unchecked`
(blockzilla-format/src/registry.rs lines 68-75): the key is assumed to be a
member of the registry; an absent key has no defined id (the minimal perfect
hash has no slot for it and `get_or_panic` aborts), modelled as a panic. -/
def lookup_unchecked (index : List Nat → Option Nat) (k : List Nat) :
    Except CompactErr Nat :=
  match index k with
  | some id => .ok id
  | none => .error (.panic "lookup_unchecked: key absent from registry")

/-- Helper `lookup_pubkey_index_optional`
(blockzilla-format/src/compact/meta.rs lines 191-201): empty string or base58
parse failure yield id 0; otherwise the unchecked registry lookup. -/
def lookup_pubkey_index_optional (index : List Nat → Option Nat)
    (s : List Char) : Except CompactErr Nat :=
  if s = [] then .ok 0
  else
    match pubkey_from_str s with
    | some pk => lookup_unchecked index pk
    | none => .ok 0

/-- Input token balance (car_reader `confirmed_block::TokenBalance`): pubkeys
are base58 strings, the amount is a decimal string. -/
structure TokenBalanceIn where
  account_index : Nat
  mint : List Char
  owner : List Char
  program_id : List Char
  ui_token_amount : Option (List Char × Nat)
deriving DecidableEq, Repr

/-- Compact token balance (blockzilla-format/src/compact/meta.rs lines 54-65). -/
structure CompactTokenBalance where
  account_index : Nat
  mint_index : Nat
  owner_index : Nat
  program_id_index : Nat
  amount : Nat
  decimals : Nat
deriving DecidableEq, Repr

/-- Function `compact_token_balance`
(blockzilla-format/src/compact/meta.rs lines 203-236): the mint string must
parse as a pubkey (`context("token mint parse")?`, an error otherwise); owner
and program_id go through the optional lookup (0 on empty or parse failure);
a missing `ui_token_amount` yields amount 0 and decimals 0, otherwise the
amount string must parse as `u64`. -/
def compact_token_balance (index : List Nat → Option Nat)
    (tb : TokenBalanceIn) : Except CompactErr CompactTokenBalance :=
  match pubkey_from_str tb.mint with
  | none => .error (.err "token mint parse")
  | some mint =>
    match lookup_unchecked index mint with
    | .error e => .error e
    | .ok mint_index =>
      match lookup_pubkey_index_optional index tb.owner with
      | .error e => .error e
      | .ok owner_index =>
        match lookup_pubkey_index_optional index tb.program_id with
        | .error e => .error e
        | .ok program_id_index =>
          match tb.ui_token_amount with
          | none =>
            .ok { account_index := tb.account_index, mint_index := mint_index,
                  owner_index := owner_index,
                  program_id_index := program_id_index,
                  amount := 0, decimals := 0 }
          | some (amountStr, decimals) =>
            match rustParseU64 amountStr with
            | none => .error (.err "parse token amount u64")
            | some amount =>
              .ok { account_index := tb.account_index,
                    mint_index := mint_index, owner_index := owner_index,
                    program_id_index := program_id_index,
                    amount := amount, decimals := decimals }

/-- Keys contributed by one token balance to the counting pass
(optimize-car-archive/src/build_registry.rs lines 155-173): the mint if it
parses, the owner if nonempty and parsing, the program id if nonempty and
parsing; a key that fails to parse is omitted. -/
def count_token_balance_keys (tb : TokenBalanceIn) : List (List Nat) :=
  (match pubkey_from_str tb.mint with
   | some pk => [pk]
   | none => []) ++
  (if tb.owner ≠ [] then
     match pubkey_from_str tb.owner with
     | some pk => [pk]
     | none => []
   else []) ++
  (if tb.program_id ≠ [] then
     match pubkey_from_str tb.program_id with
     | some pk => [pk]
     | none => []
   else [])


/-! ## CAR block-group reader (car-reader/src/reader.rs, cid.rs, car_stream.rs) -/

/-- Error type `CarReadError` (car-reader/src/error.rs). -/
inductive CarErr where
  | ioError (msg : String)
  | unexpectedEof (msg : String)
  | varintOverflow (msg : String)
  | cidError (msg : String)
deriving DecidableEq, Repr

/-- Streaming uvarint reader `read_uvarint_bufread`
(car-reader/src/reader.rs lines 126-173): bytes are consumed until one below
0x80 terminates the number; end of stream mid-varint is `UnexpectedEof`; a
tenth byte above 1, or a shift past 63 bits, is an overflow. The returned
remainder is strictly shorter than the input. -/
def read_uvarint_go (s : List Nat) (x sh i : Nat) :
    Except CarErr (Nat × { rest : List Nat // rest.length < s.length }) :=
  match s with
  | [] => .error (.unexpectedEof "EOF while reading uvarint")
  | b :: rest =>
    let i2 := i + 1
    if b < 128 then
      if i2 = 10 ∧ b > 1 then .error (.varintOverflow "uvarint overflow")
      else .ok (x + b * 2 ^ sh, ⟨rest, by simp⟩)
    else
      let x2 := x + (b % 128) * 2 ^ sh
      let sh2 := sh + 7
      if sh2 > 63 then .error (.varintOverflow "uvarint too long")
      else
        match read_uvarint_go rest x2 sh2 i2 with
        | .error e => .error e
        | .ok (v, ⟨r, hr⟩) =>
          .ok (v, ⟨r, by simpa using Nat.lt_succ_of_lt hr⟩)

/-- Entry point of the streaming uvarint reader. -/
def read_uvarint (s : List Nat) :
    Except CarErr (Nat × { rest : List Nat // rest.length < s.length }) :=
  read_uvarint_go s 0 0 0

/-- In-memory uvarint reader `read_uvarint_slice` (car-reader/src/cid.rs
lines 7-22): at most ten bytes are examined and the byte count used is
returned; failure is `none`. -/
def read_uvarint_slice_go : List Nat → Nat → Nat → Nat → Option (Nat × Nat)
  | [], _, _, _ => none
  | b :: rest, x, sh, i =>
    if i ≥ 10 then none
    else if b < 128 then some (x + b * 2 ^ sh, i + 1)
    else
      let sh2 := sh + 7
      if sh2 > 63 then none
      else read_uvarint_slice_go rest (x + (b % 128) * 2 ^ sh) sh2 (i + 1)

/-- Entry point of the slice uvarint reader. -/
def read_uvarint_slice (s : List Nat) : Option (Nat × Nat) :=
  read_uvarint_slice_go s 0 0 0

/-- Function `cid_bytes_len` (car-reader/src/cid.rs lines 30-59): length of
the CIDv1 prefix `0x01 + codec + mh_code + mh_len + digest[mh_len]` at the
start of an entry, each numeric field a uvarint. -/
def cid_bytes_len (entry : List Nat) : Except CarErr Nat :=
  match entry with
  | [] => .error (.cidError "empty entry")
  | b :: _ =>
    if b ≠ 1 then .error (.cidError "expected CIDv1 (0x01)")
    else
      match read_uvarint_slice (entry.drop 1) with
      | none => .error (.cidError "truncated codec")
      | some (_, u1) =>
        match read_uvarint_slice (entry.drop (1 + u1)) with
        | none => .error (.cidError "truncated mh_code")
        | some (_, u2) =>
          match read_uvarint_slice (entry.drop (1 + u1 + u2)) with
          | none => .error (.cidError "truncated mh_len")
          | some (mh_len, u3) =>
            let endPos := 1 + u1 + u2 + u3 + mh_len
            if entry.length < endPos then
              .error (.cidError "multihash digest truncated")
            else .ok endPos

/-- Peek `is_block_node` (car-reader/src/reader.rs lines 177-186): the payload
must start with a CBOR array header byte (top three bits 100) followed by the
kind byte 2. -/
def is_block_node (payload : List Nat) : Bool :=
  match payload with
  | b0 :: b1 :: _ => (b0 / 32 = 4) && (b1 = 2)
  | _ => false

/-- Group of CAR sections ending at the block-root section
(car-reader/src/car_block_group.rs as filled by `read_until_block_into`). -/
structure CarBlockGroup where
  payloads : List (List Nat)
  cid_map : List (List Nat × Nat)
  block_payload : List Nat
deriving DecidableEq, Repr

/-- Loop body of `CarBlockReader::read_until_block_into`
(car-reader/src/reader.rs lines 40-110). Per section it reads the uvarint
size (end of stream here is a clean end when no section of the group was read
yet, and `EOF mid group` otherwise), skips size 0, reads the section bytes (a
short read returns `Ok(None)`, the rollback branch on lines 64-74), splits off
the CID prefix, and stops when the payload is a block node, returning the
assembled group and the unconsumed remainder of the stream. -/
def read_until_block_go (s : List Nat) (entries : List (List Nat × List Nat)) :
    Except CarErr (Option (CarBlockGroup × List Nat)) :=
  match read_uvarint s with
  | .error (.unexpectedEof _) =>
    if entries.isEmpty then .ok none
    else .error (.unexpectedEof "EOF mid group")
  | .error e => .error e
  | .ok (size, ⟨s1, hs1⟩) =>
    if hz : size = 0 then read_until_block_go s1 entries
    else if s1.length < size then .ok none
    else
      let entry := s1.take size
      match cid_bytes_len entry with
      | .error e => .error e
      | .ok cl =>
        let payload := entry.drop cl
        let entries2 := entries ++ [(entry.take cl, payload)]
        if is_block_node payload then
          .ok (some ({ payloads := entries2.map Prod.snd,
                       cid_map := entries2.enum.map (fun p => (p.2.1, p.1)),
                       block_payload := payload }, s1.drop size))
        else read_until_block_go (s1.drop size) entries2
termination_by s.length
decreasing_by
  · exact hs1
  · have h1 : (s1.drop size).length ≤ s1.length := by
      simp [List.length_drop]
    omega

/-- Entry point of `read_until_block_into`: a fresh group accumulator. -/
def read_until_block (s : List Nat) :
    Except CarErr (Option (CarBlockGroup × List Nat)) :=
  read_until_block_go s []

/-- Iterated reading: the outcomes of the first `n` calls of
`read_until_block_into` on the stream, threading the remainder. -/
def read_groups (n : Nat) (s : List Nat) :
    List (Except CarErr (Option CarBlockGroup)) :=
  match n with
  | 0 => []
  | n + 1 =>
    match read_until_block s with
    | .error e => [.error e]
    | .ok none => [.ok none]
    | .ok (some (g, rest)) => .ok (some g) :: read_groups n rest

/-- Method `CarStream::next_group` (car-reader/src/car_stream.rs lines 16-25):
any error of `read_until_block_into` is swallowed into `Ok(None)`, and both
`Ok(true)` and the clean end `Ok(false)` report `Some(group)` (on a clean end
the group buffer was cleared, so an empty group is handed out). -/
def car_stream_next_group (s : List Nat) :
    Option (Option CarBlockGroup × List Nat) :=
  match read_until_block s with
  | .ok (some (g, rest)) => some (some g, rest)
  | .ok none => some (none, s)
  | .error _ => none


/-! ## String primitives for the log compactor

Log lines are modelled as lists of characters; the Rust `str` operations used
by blockzilla-format/src/compact/log.rs and blockzilla-format/src/program_logs
are given list-level counterparts. -/

/-- Unicode `White_Space` set, as used by Rust `char::is_whitespace`. -/
def rsIsWhitespace (c : Char) : Bool :=
  c.toNat ∈ [9, 10, 11, 12, 13, 32, 133, 160, 5760,
             8192, 8193, 8194, 8195, 8196, 8197, 8198, 8199, 8200, 8201, 8202,
             8232, 8233, 8239, 8287, 12288]

/-- Rust `str::trim_end`. -/
def trimEndL (s : List Char) : List Char :=
  (s.reverse.dropWhile rsIsWhitespace).reverse

/-- Rust `str::trim_start`. -/
def trimStartL (s : List Char) : List Char :=
  s.dropWhile rsIsWhitespace

/-- Rust `str::trim`. -/
def trimL (s : List Char) : List Char :=
  trimEndL (trimStartL s)

/-- Rust `str::strip_prefix`. -/
def stripPreL (p s : List Char) : Option (List Char) :=
  if p.isPrefixOf s then some (s.drop p.length) else none

/-- Rust `str::strip_suffix`. -/
def stripSufL (p s : List Char) : Option (List Char) :=
  if p.isSuffixOf s then some (s.take (s.length - p.length)) else none

/-- Rust `str::find` with a substring pattern: index of the first occurrence. -/
def findSubL (s pat : List Char) : Option Nat :=
  if pat.isPrefixOf s then some 0
  else
    match s with
    | [] => none
    | _ :: t => (findSubL t pat).map (· + 1)

/-- Rust `str::split_once` with a substring pattern. -/
def splitOnceL (s pat : List Char) : Option (List Char × List Char) :=
  (findSubL s pat).map (fun i => (s.take i, s.drop (i + pat.length)))

/-- Rust `str::find` with a character predicate. -/
def findCharL (s : List Char) (p : Char → Bool) : Option Nat :=
  match s with
  | [] => none
  | c :: t => if p c then some 0 else (findCharL t p).map (· + 1)

/-- Rust `str::rfind` with a character pattern: index of the last occurrence. -/
def rfindCharL (s : List Char) (c : Char) : Option Nat :=
  match s with
  | [] => none
  | a :: t =>
    match rfindCharL t c with
    | some i => some (i + 1)
    | none => if a = c then some 0 else none

/-- Rust `str::split_whitespace` (maximal nonempty runs between whitespace). -/
def splitWsGo : List Char → List Char → List (List Char)
  | [], acc => if acc.isEmpty then [] else [acc.reverse]
  | c :: t, acc =>
    if rsIsWhitespace c then
      if acc.isEmpty then splitWsGo t [] else acc.reverse :: splitWsGo t []
    else splitWsGo t (c :: acc)

/-- Entry point of `split_whitespace`. -/
def splitWsL (s : List Char) : List (List Char) := splitWsGo s []

/-- Rust `str::replace(pat, "")` with a character pattern: remove every
occurrence. -/
def removeCharL (s : List Char) (c : Char) : List Char :=
  s.filter (fun x => x ≠ c)

/-- ASCII model of Rust `str::to_lowercase` (the source applies it only to
payload text behind the compute-budget program check, which is ASCII). -/
def toLowerAsciiL (s : List Char) : List Char :=
  s.map (fun c => if 65 ≤ c.toNat ∧ c.toNat ≤ 90 then Char.ofNat (c.toNat + 32) else c)

/-- Rust `str::trim_end_matches` with a character pattern. -/
def trimEndMatchesL (s : List Char) (c : Char) : List Char :=
  (s.reverse.dropWhile (fun x => x = c)).reverse

/-- Decimal digit test, as Rust `char::is_ascii_digit` inside integer parsing. -/
def isDecDigit (c : Char) : Bool := 48 ≤ c.toNat ∧ c.toNat ≤ 57

/-- Generic checked decimal parser: optional leading plus sign, at least one
digit, failure above the bound (Rust `str::parse` for unsigned integers). -/
def rustParseUnsigned (bound : Nat) (s : List Char) : Option Nat :=
  let body := match s with
    | c :: cs => if c = Char.ofNat 43 then cs else s
    | [] => s
  if body.isEmpty then none
  else
    body.foldl (fun acc c =>
      match acc with
      | none => none
      | some v =>
        if isDecDigit c then
          let v2 := v * 10 + (c.toNat - 48)
          if v2 < bound then some v2 else none
        else none) (some 0)

/-- Rust `str::parse::<u32>`. -/
def rustParseU32 (s : List Char) : Option Nat :=
  rustParseUnsigned 4294967296 s

/-- Rust `str::parse::<usize>` (64-bit). -/
def rustParseUsize (s : List Char) : Option Nat :=
  rustParseUnsigned 18446744073709551616 s

/-- Hexadecimal digit value. -/
def hexDigitVal (c : Char) : Option Nat :=
  if 48 ≤ c.toNat ∧ c.toNat ≤ 57 then some (c.toNat - 48)
  else if 97 ≤ c.toNat ∧ c.toNat ≤ 102 then some (c.toNat - 87)
  else if 65 ≤ c.toNat ∧ c.toNat ≤ 70 then some (c.toNat - 55)
  else none

/-- Rust `u32::from_str_radix(s, 16)`: optional leading plus sign, at least
one hex digit, overflow past `u32::MAX` fails. -/
def rustParseHexU32 (s : List Char) : Option Nat :=
  let body := match s with
    | c :: cs => if c = Char.ofNat 43 then cs else s
    | [] => s
  if body.isEmpty then none
  else
    body.foldl (fun acc c =>
      match acc, hexDigitVal c with
      | some v, some d =>
        let v2 := v * 16 + d
        if v2 < 4294967296 then some v2 else none
      | _, _ => none) (some 0)

/-- Decimal digit character. -/
def decDigitChar (d : Nat) : Char := Char.ofNat (48 + d)

/-- Decimal digit expansion with structural fuel. -/
def natToDecGo : Nat → Nat → List Char
  | 0, _ => []
  | _ + 1, 0 => []
  | fuel + 1, n + 1 =>
    natToDecGo fuel ((n + 1) / 10) ++ [decDigitChar ((n + 1) % 10)]

/-- Rust `{}` for unsigned integers: zero prints `0`. -/
def natToDec (n : Nat) : List Char :=
  if n = 0 then [Char.ofNat 48] else natToDecGo n n

/-- Lower-case hex digit character. -/
def hexDigitChar (d : Nat) : Char :=
  if d < 10 then Char.ofNat (48 + d) else Char.ofNat (87 + d)

/-- Hexadecimal digit expansion with structural fuel. -/
def natToHexGo : Nat → Nat → List Char
  | 0, _ => []
  | _ + 1, 0 => []
  | fuel + 1, n + 1 =>
    natToHexGo fuel ((n + 1) / 16) ++ [hexDigitChar ((n + 1) % 16)]

/-- Rust `{:x}` for unsigned integers: zero prints `0`. -/
def natToHex (n : Nat) : List Char :=
  if n = 0 then [Char.ofNat 48] else natToHexGo n n


/-! ## Base64 (data_encoding BASE64, used for `Program data:` and
`Program return:` payloads) -/

/-- Standard base64 alphabet. -/
def base64Chars : List Char :=
  "ABCDEFGHIJKLMNOPQRSTUVWXYZabcdefghijklmnopqrstuvwxyz0123456789+/".data

/-- Value of a base64 data character. -/
def base64DigitVal (c : Char) : Option Nat :=
  base64Chars.indexOf? c

/-- Character of a 6-bit value. -/
def base64Char (d : Nat) : Char := base64Chars.getD d (Char.ofNat 65)

/-- Strict decoding of the final base64 quantum, accepting canonical padding
only (data_encoding rejects nonzero trailing bits). -/
def base64DecodeFinal (a b c d : Char) : Option (List Nat) :=
  let pad := Char.ofNat 61
  match base64DigitVal a, base64DigitVal b with
  | some va, some vb =>
    if c = pad ∧ d = pad then
      if vb % 16 = 0 then some [va * 4 + vb / 16] else none
    else if d = pad then
      match base64DigitVal c with
      | some vc =>
        if vc % 4 = 0 then some [va * 4 + vb / 16, (vb % 16) * 16 + vc / 4]
        else none
      | none => none
    else
      match base64DigitVal c, base64DigitVal d with
      | some vc, some vd =>
        some [va * 4 + vb / 16, (vb % 16) * 16 + vc / 4, (vc % 4) * 64 + vd]
      | _, _ => none
  | _, _ => none

/-- Strict base64 decoding of a full string: quanta of four characters,
padding allowed only in the last quantum (data_encoding `BASE64.decode_mut`;
`decode_len` already rejects lengths not divisible by four). -/
def base64DecodeGo : List Char → Option (List Nat)
  | [] => some []
  | a :: b :: c :: d :: rest =>
    if rest.isEmpty then base64DecodeFinal a b c d
    else
      match base64DigitVal a, base64DigitVal b, base64DigitVal c,
            base64DigitVal d with
      | some va, some vb, some vc, some vd =>
        match base64DecodeGo rest with
        | some bs =>
          some ([va * 4 + vb / 16, (vb % 16) * 16 + vc / 4,
                 (vc % 4) * 64 + vd] ++ bs)
        | none => none
      | _, _, _, _ => none
  | _ => none

/-- Entry point of strict base64 decoding. -/
def base64DecodeL (s : List Char) : Option (List Nat) :=
  if s.length % 4 = 0 then base64DecodeGo s else none

/-- Base64 encoding with padding (data_encoding `BASE64.encode`). -/
def base64EncodeL : List Nat → List Char
  | [] => []
  | [b1] =>
    [base64Char (b1 / 4), base64Char ((b1 % 4) * 16), Char.ofNat 61,
     Char.ofNat 61]
  | [b1, b2] =>
    [base64Char (b1 / 4), base64Char ((b1 % 4) * 16 + b2 / 16),
     base64Char ((b2 % 16) * 4), Char.ofNat 61]
  | b1 :: b2 :: b3 :: rest =>
    [base64Char (b1 / 4), base64Char ((b1 % 4) * 16 + b2 / 16),
     base64Char ((b2 % 16) * 4 + b3 / 64), base64Char (b3 % 64)] ++
      base64EncodeL rest

/-! ## Log event data model (blockzilla-format/src/compact/log.rs and
blockzilla-format/src/program_logs)

String ids and data ids are positions in the per-stream tables. The
`ProgramLog` variants of the program_logs submodules that are not present
under src (address_lookup_table, loader_v3, loader_v4, memo, record,
transfer_hook, account_compression) are modelled from the spec as closed-set
matchers whose canonical string sets the spec does not enumerate; they are
modelled as never matching and their payload-carrying variants are omitted. -/

/-- Enum `SystemInstructionLog` (program_logs/system_program.rs lines 76-78). -/
inductive SystemInstructionLog where
  | revokePendingActivation
deriving DecidableEq, Repr

/-- Enum `SystemProgramLog` (program_logs/system_program.rs lines 16-73).
Pubkey-valued fields hold registry ids; `msg` and `text` hold string ids. -/
inductive SystemProgramLog where
  | instruction (ix : SystemInstructionLog)
  | createAddressMismatch (provided_addr derived_addr : Nat)
  | createAccountAlreadyInUse (addr : Nat)
  | allocateAlreadyInUse (addr : Nat)
  | allocateToMustSign (addr : Nat)
  | allocateAccountAlreadyInUse (addr : Nat)
  | allocateRequestedTooLarge (requested max_allowed : Nat)
  | assignAccountMustSign (addr : Nat)
  | createAccountAccountAlreadyInUse (addr : Nat)
  | transferFromMustNotCarryData
  | transferFromMustSign (fromAddr : Nat)
  | transferInsufficient (haveAmt needAmt : Nat)
  | transferFromAddressMismatch (provided_addr derived_addr : Nat)
  | advanceNonceRecentBlockhashesEmpty
  | initializeNonceRecentBlockhashesEmpty
  | authorizeNonceAccount (msg : Nat)
  | unparsedText (text : Nat)
deriving DecidableEq, Repr

/-- Enum `TokenErrorLog` of SPL Token (program_logs/token.rs lines 7-28). -/
inductive TokenErrorLog where
  | notRentExempt
  | insufficientFunds
  | invalidMint
  | mintMismatch
  | ownerMismatch
  | fixedSupply
  | alreadyInUse
  | invalidNumberOfProvidedSigners
  | invalidNumberOfRequiredSigners
  | uninitializedState
  | nativeNotSupported
  | nonNativeHasBalance
  | invalidInstruction
  | invalidState
  | overflowErr
  | authorityTypeNotSupported
  | mintCannotFreeze
  | accountFrozen
  | mintDecimalsMismatch
  | nonNativeNotSupported
deriving DecidableEq, Repr

/-- Enum `TokenLog` of SPL Token (program_logs/token.rs lines 96-131). -/
inductive TokenLog where
  | errorLog (e : TokenErrorLog)
  | pleaseUpgrade
  | getAccountDataSize
  | instructionBatch
  | instructionInitializeMint
  | instructionInitializeMint2
  | instructionInitializeAccount
  | instructionInitializeAccount2
  | instructionInitializeAccount3
  | instructionInitializeMultisig
  | instructionInitializeMultisig2
  | instructionInitializeImmutableOwner
  | instructionTransfer
  | instructionTransferChecked
  | instructionApprove
  | instructionRevoke
  | instructionSetAuthority
  | instructionMintTo
  | instructionMintToChecked
  | instructionBurn
  | instructionBurnChecked
  | instructionCloseAccount
  | instructionFreezeAccount
  | instructionThawAccount
  | instructionSyncNative
  | instructionAmountToUiAmount
  | instructionUiAmountToAmount
  | instructionWithdrawExcessLamports
  | instructionUnwrapLamports
deriving DecidableEq, Repr

/-- Enum `TokenErrorLog` of the Associated Token Account program
(program_logs/associated_token_account.rs lines 6-20). -/
inductive AtaErrorLog where
  | invalidSeeds
  | invalidOwnerSeeds
  | invalidNestedSeeds
  | invalidDestinationSeeds
  | missingRequiredSignature
  | illegalMintOwner
  | illegalAtaProgramOwner
  | illegalNestedProgramOwner
  | illegalNestedOwner
  | illegalNestedMintOwner
  | illegalAtaOwner
  | invalidOwner
deriving DecidableEq, Repr


/-- Enum `Token2022ErrorLog` (program_logs/token_2022.rs lines 43-114). -/
inductive Token2022ErrorLog where
  | notRentExempt
  | insufficientFunds
  | invalidMint
  | mintMismatch
  | ownerMismatch
  | fixedSupply
  | alreadyInUse
  | invalidNumberOfProvidedSigners
  | invalidNumberOfRequiredSigners
  | uninitializedState
  | nativeNotSupported
  | nonNativeHasBalance
  | invalidInstruction
  | invalidState
  | overflowErr
  | authorityTypeNotSupported
  | mintCannotFreeze
  | accountFrozen
  | mintDecimalsMismatch
  | nonNativeNotSupported
  | extensionTypeMismatch
  | extensionBaseMismatch
  | extensionAlreadyInitialized
  | confidentialTransferAccountHasBalance
  | confidentialTransferAccountNotApproved
  | confidentialTransferDepositsAndTransfersDisabled
  | confidentialTransferElGamalPubkeyMismatch
  | confidentialTransferBalanceMismatch
  | mintHasSupply
  | noAuthorityExists
  | transferFeeExceedsMaximum
  | mintRequiredForTransfer
  | feeMismatch
  | feeParametersMismatch
  | immutableOwner
  | accountHasWithheldTransferFees
  | noMemo
  | nonTransferable
  | nonTransferableNeedsImmutableOwnership
  | maximumPendingBalanceCreditCounterExceeded
  | maximumDepositAmountExceeded
  | cpiGuardSettingsLocked
  | cpiGuardTransferBlocked
  | cpiGuardBurnBlocked
  | cpiGuardCloseAccountBlocked
  | cpiGuardApproveBlocked
  | cpiGuardSetAuthorityBlocked
  | cpiGuardOwnerChangeBlocked
  | extensionNotFound
  | nonConfidentialTransfersDisabled
  | confidentialTransferFeeAccountHasWithheldFee
  | invalidExtensionCombination
  | invalidLengthForAlloc
  | accountDecryption
  | proofGeneration
  | invalidProofInstructionOffset
  | harvestToMintDisabled
  | splitProofContextStateAccountsNotSupported
  | notEnoughProofContextStateAccounts
  | malformedCiphertext
  | ciphertextArithmeticFailed
  | pedersenCommitmentMismatch
  | rangeProofLengthMismatch
  | illegalBitLength
  | feeCalculation
  | illegalMintBurnConversion
  | invalidScale
  | mintPaused
  | pendingBalanceNonZero
deriving DecidableEq, Repr

/-- Enum `Token2022Log` (program_logs/token_2022.rs lines 15-41). -/
inductive Token2022Log where
  | errorLog (e : Token2022ErrorLog)
  | accountNeedsResizePlusBytesDebug (bytes : Nat)
  | accountNeedsResizePlusBytesDebug2 (bytes : Nat)
  | errorHarvestingFrom (account_key : Nat) (error : Nat)
  | errorHarvestingFrom2 (account_key : Nat) (error : Nat)
  | errorHarvestingFrom3 (account_key : Nat) (error : Nat)
  | errorHarvestingFrom4 (account_key : Nat) (error : Nat)
deriving DecidableEq, Repr

/-- Enum `ProgramLog` (program_logs/mod.rs lines 18-46). The variants of the
submodules absent from src are modelled as never produced and omitted. -/
inductive ProgramLog where
  | token (t : TokenLog)
  | token2022 (t : Token2022Log)
  | ata (t : AtaErrorLog)
  | anchorInstruction (name : Nat)
  | anchorErrorOccurred (code : Nat) (number : Nat) (msg : Nat)
  | anchorErrorThrown (file : Nat) (line : Nat) (code : Nat) (number : Nat)
      (msg : Nat)
  | unknown (text : Nat)
deriving DecidableEq, Repr

/-- Enum `LogEvent` (blockzilla-format/src/compact/log.rs lines 70-181). -/
inductive LogEvent where
  | system (sys : SystemProgramLog)
  | programLog (log : ProgramLog)
  | programLogError (msg : Nat)
  | programIdLog (program : Nat) (log : ProgramLog)
  | invoke (program : Nat) (depth : Nat)
  | consumed (program : Nat) (used : Nat) (limit : Nat)
  | success (program : Nat)
  | failure (program : Nat) (reason : Nat)
  | failureCustomProgramError (program : Nat) (code : Nat)
  | failureInvalidAccountData (program : Nat)
  | failureInvalidProgramArgument (program : Nat)
  | failedToComplete (reason : Nat)
  | customProgramError (code : Nat)
  | programReturn (program : Nat) (data : Nat)
  | dataEvent (data : Nat)
  | consumption (units : Nat)
  | cbRequestUnits (units : Nat)
  | programNotDeployed (program : Option Nat)
  | unknownProgram (program : Nat)
  | unknownAccount (account : Nat)
  | verifyEd25519
  | verifySecp256k1
  | closeContextState
  | plain (text : Nat)
  | unparsed (text : Nat)
deriving DecidableEq, Repr

/-- Struct `CompactLogStream` (blockzilla-format/src/compact/log.rs
lines 17-22): events plus the per-stream string and data tables. -/
structure CompactLogStream where
  events : List LogEvent
  strings : List (List Char)
  data : List (List (List Nat))
deriving DecidableEq, Repr

/-- Push into the string table: the id is the length before the push
(`StringTable::push`). -/
def stPush (st : List (List Char)) (s : List Char) : Nat × List (List Char) :=
  (st.length, st ++ [s])

/-- Push into the data table (`DataTable::push`). -/
def dtPush (dt : List (List (List Nat))) (d : List (List Nat)) :
    Nat × List (List (List Nat)) :=
  (dt.length, dt ++ [d])

/-- Shorthand turning a string literal into its character list. -/
def lc (s : String) : List Char := s.data

/-- Parser `TokenErrorLog::parse` (program_logs/token.rs lines 31-65). -/
def tokenErrorLogParse (text : List Char) : Option TokenErrorLog :=
  if text = lc "Error: Lamport balance below rent-exempt threshold" then some .notRentExempt
    else if text = lc "Error: insufficient funds" then some .insufficientFunds
    else if text = lc "Error: Invalid Mint" then some .invalidMint
    else if text = lc "Error: Account not associated with this Mint" then some .mintMismatch
    else if text = lc "Error: owner does not match" then some .ownerMismatch
    else if text = lc "Error: the total supply of this token is fixed" then some .fixedSupply
    else if text = lc "Error: account or token already in use" then some .alreadyInUse
    else if text = lc "Error: Invalid number of provided signers" then some .invalidNumberOfProvidedSigners
    else if text = lc "Error: Invalid number of required signers" then some .invalidNumberOfRequiredSigners
    else if text = lc "Error: State is uninitialized" then some .uninitializedState
    else if text = lc "Error: Instruction does not support native tokens" then some .nativeNotSupported
    else if text = lc "Error: Non-native account can only be closed if its balance is zero" then some .nonNativeHasBalance
    else if text = lc "Error: Invalid instruction" then some .invalidInstruction
    else if text = lc "Error: Invalid account state for operation" then some .invalidState
    else if text = lc "Error: Operation overflowed" then some .overflowErr
    else if text = lc "Error: Account does not support specified authority type" then some .authorityTypeNotSupported
    else if text = lc "Error: This token mint cannot freeze accounts" then some .mintCannotFreeze
    else if text = lc "Error: Account is frozen" then some .accountFrozen
    else if text = lc "Error: decimals different from the Mint decimals" then some .mintDecimalsMismatch
    else if text = lc "Error: Instruction does not support non-native tokens" then some .nonNativeNotSupported
  else none

/-- Renderer `TokenErrorLog::as_str` (program_logs/token.rs lines 67-94). -/
def tokenErrorLogAsStr : TokenErrorLog → List Char
  | .notRentExempt => lc "Error: Lamport balance below rent-exempt threshold"
  | .insufficientFunds => lc "Error: insufficient funds"
  | .invalidMint => lc "Error: Invalid Mint"
  | .mintMismatch => lc "Error: Account not associated with this Mint"
  | .ownerMismatch => lc "Error: owner does not match"
  | .fixedSupply => lc "Error: the total supply of this token is fixed"
  | .alreadyInUse => lc "Error: account or token already in use"
  | .invalidNumberOfProvidedSigners => lc "Error: Invalid number of provided signers"
  | .invalidNumberOfRequiredSigners => lc "Error: Invalid number of required signers"
  | .uninitializedState => lc "Error: State is uninitialized"
  | .nativeNotSupported => lc "Error: Instruction does not support native tokens"
  | .nonNativeHasBalance => lc "Error: Non-native account can only be closed if its balance is zero"
  | .invalidInstruction => lc "Error: Invalid instruction"
  | .invalidState => lc "Error: Invalid account state for operation"
  | .overflowErr => lc "Error: Operation overflowed"
  | .authorityTypeNotSupported => lc "Error: Account does not support specified authority type"
  | .mintCannotFreeze => lc "Error: This token mint cannot freeze accounts"
  | .accountFrozen => lc "Error: Account is frozen"
  | .mintDecimalsMismatch => lc "Error: decimals different from the Mint decimals"
  | .nonNativeNotSupported => lc "Error: Instruction does not support non-native tokens"

/-- Parser `TokenLog::parse` (program_logs/token.rs lines 136-181): the
error table, the upgrade notice, then `Instruction: <name>` with the name
trimmed and matched against the closed instruction set. -/
def tokenLogParse (text : List Char) : Option TokenLog :=
  match tokenErrorLogParse text with
  | some e => some (.errorLog e)
  | none =>
    if text = lc "Please upgrade to SPL Token 2022 for immutable owner support" then
      some .pleaseUpgrade
    else
      match stripPreL (lc "Instruction: ") text with
      | none => none
      | some rest =>
        let name := trimL rest
        if name = lc "Batch" then some .instructionBatch
          else if name = lc "InitializeMint" then some .instructionInitializeMint
          else if name = lc "InitializeMint2" then some .instructionInitializeMint2
          else if name = lc "InitializeAccount" then some .instructionInitializeAccount
          else if name = lc "InitializeAccount2" then some .instructionInitializeAccount2
          else if name = lc "InitializeAccount3" then some .instructionInitializeAccount3
          else if name = lc "InitializeMultisig" then some .instructionInitializeMultisig
          else if name = lc "InitializeMultisig2" then some .instructionInitializeMultisig2
          else if name = lc "InitializeImmutableOwner" then some .instructionInitializeImmutableOwner
          else if name = lc "GetAccountDataSize" then some .getAccountDataSize
          else if name = lc "AmountToUiAmount" then some .instructionAmountToUiAmount
          else if name = lc "UiAmountToAmount" then some .instructionUiAmountToAmount
          else if name = lc "Transfer" then some .instructionTransfer
          else if name = lc "TransferChecked" then some .instructionTransferChecked
          else if name = lc "Approve" then some .instructionApprove
          else if name = lc "Revoke" then some .instructionRevoke
          else if name = lc "SetAuthority" then some .instructionSetAuthority
          else if name = lc "MintTo" then some .instructionMintTo
          else if name = lc "MintToChecked" then some .instructionMintToChecked
          else if name = lc "Burn" then some .instructionBurn
          else if name = lc "BurnChecked" then some .instructionBurnChecked
          else if name = lc "CloseAccount" then some .instructionCloseAccount
          else if name = lc "FreezeAccount" then some .instructionFreezeAccount
          else if name = lc "ThawAccount" then some .instructionThawAccount
          else if name = lc "SyncNative" then some .instructionSyncNative
          else if name = lc "WithdrawExcessLamports" then some .instructionWithdrawExcessLamports
          else if name = lc "UnwrapLamports" then some .instructionUnwrapLamports
        else none

/-- Renderer `TokenLog::as_str` (program_logs/token.rs lines 184-222). -/
def tokenLogAsStr : TokenLog → List Char
  | .errorLog e => tokenErrorLogAsStr e
  | .pleaseUpgrade => lc "Please upgrade to SPL Token 2022 for immutable owner support"
  | .instructionBatch => lc "Instruction: Batch"
  | .instructionInitializeMint => lc "Instruction: InitializeMint"
  | .instructionInitializeMint2 => lc "Instruction: InitializeMint2"
  | .instructionInitializeAccount => lc "Instruction: InitializeAccount"
  | .instructionInitializeAccount2 => lc "Instruction: InitializeAccount2"
  | .instructionInitializeAccount3 => lc "Instruction: InitializeAccount3"
  | .instructionInitializeMultisig => lc "Instruction: InitializeMultisig"
  | .instructionInitializeMultisig2 => lc "Instruction: InitializeMultisig2"
  | .instructionInitializeImmutableOwner => lc "Instruction: InitializeImmutableOwner"
  | .getAccountDataSize => lc "Instruction: GetAccountDataSize"
  | .instructionAmountToUiAmount => lc "Instruction: AmountToUiAmount"
  | .instructionUiAmountToAmount => lc "Instruction: UiAmountToAmount"
  | .instructionTransfer => lc "Instruction: Transfer"
  | .instructionTransferChecked => lc "Instruction: TransferChecked"
  | .instructionApprove => lc "Instruction: Approve"
  | .instructionRevoke => lc "Instruction: Revoke"
  | .instructionSetAuthority => lc "Instruction: SetAuthority"
  | .instructionMintTo => lc "Instruction: MintTo"
  | .instructionMintToChecked => lc "Instruction: MintToChecked"
  | .instructionBurn => lc "Instruction: Burn"
  | .instructionBurnChecked => lc "Instruction: BurnChecked"
  | .instructionCloseAccount => lc "Instruction: CloseAccount"
  | .instructionFreezeAccount => lc "Instruction: FreezeAccount"
  | .instructionThawAccount => lc "Instruction: ThawAccount"
  | .instructionSyncNative => lc "Instruction: SyncNative"
  | .instructionWithdrawExcessLamports => lc "Instruction: WithdrawExcessLamports"
  | .instructionUnwrapLamports => lc "Instruction: UnwrapLamports"

/-- Parser of the ATA error table, `TokenErrorLog::parse`
(program_logs/associated_token_account.rs lines 24-60). -/
def ataErrorLogParse (text : List Char) : Option AtaErrorLog :=
  if text = lc "Error: Associated address does not match seed derivation" then some .invalidSeeds
    else if text = lc "Error: Associated token account owner does not match address derivation" then some .invalidOwner
    else if text = lc "Error: Owner associated address does not match seed derivation" then some .invalidOwnerSeeds
    else if text = lc "Error: Nested associated address does not match seed derivation" then some .invalidNestedSeeds
    else if text = lc "Error: Destination associated address does not match seed derivation" then some .invalidDestinationSeeds
    else if text = lc "Wallet of the owner associated token account must sign" then some .missingRequiredSignature
    else if text = lc "Owner mint not owned by provided token program" then some .illegalMintOwner
    else if text = lc "Owner associated token account not owned by provided token program, recreate the owner associated token account first" then some .illegalAtaProgramOwner
    else if text = lc "Owner associated token account not owned by provided wallet" then some .illegalAtaOwner
    else if text = lc "Nested associated token account not owned by provided token program" then some .illegalNestedProgramOwner
    else if text = lc "Nested associated token account not owned by provided associated token account" then some .illegalNestedOwner
    else if text = lc "Nested mint account not owned by provided token program" then some .illegalNestedMintOwner
  else none

/-- Renderer `TokenErrorLog::as_str` of the ATA program
(program_logs/associated_token_account.rs lines 63-96). -/
def ataErrorLogAsStr : AtaErrorLog → List Char
  | .invalidSeeds => lc "Error: Associated address does not match seed derivation"
  | .invalidOwner => lc "Error: Associated token account owner does not match address derivation"
  | .invalidOwnerSeeds => lc "Error: Owner associated address does not match seed derivation"
  | .invalidNestedSeeds => lc "Error: Nested associated address does not match seed derivation"
  | .invalidDestinationSeeds => lc "Error: Destination associated address does not match seed derivation"
  | .missingRequiredSignature => lc "Wallet of the owner associated token account must sign"
  | .illegalMintOwner => lc "Owner mint not owned by provided token program"
  | .illegalAtaProgramOwner => lc "Owner associated token account not owned by provided token program, recreate the owner associated token account first"
  | .illegalAtaOwner => lc "Owner associated token account not owned by provided wallet"
  | .illegalNestedProgramOwner => lc "Nested associated token account not owned by provided token program"
  | .illegalNestedOwner => lc "Nested associated token account not owned by provided associated token account"
  | .illegalNestedMintOwner => lc "Nested mint account not owned by provided token program"

/-- Parser `Token2022ErrorLog::parse` (program_logs/token_2022.rs
lines 118-262). -/
def token2022ErrorLogParse (text : List Char) : Option Token2022ErrorLog :=
  if text = lc "Error: Lamport balance below rent-exempt threshold" then some .notRentExempt
    else if text = lc "Error: insufficient funds" then some .insufficientFunds
    else if text = lc "Error: Invalid Mint" then some .invalidMint
    else if text = lc "Error: Account not associated with this Mint" then some .mintMismatch
    else if text = lc "Error: owner does not match" then some .ownerMismatch
    else if text = lc "Error: the total supply of this token is fixed" then some .fixedSupply
    else if text = lc "Error: account or token already in use" then some .alreadyInUse
    else if text = lc "Error: Invalid number of provided signers" then some .invalidNumberOfProvidedSigners
    else if text = lc "Error: Invalid number of required signers" then some .invalidNumberOfRequiredSigners
    else if text = lc "Error: State is uninitialized" then some .uninitializedState
    else if text = lc "Error: Instruction does not support native tokens" then some .nativeNotSupported
    else if text = lc "Error: Non-native account can only be closed if its balance is zero" then some .nonNativeHasBalance
    else if text = lc "Error: Invalid instruction" then some .invalidInstruction
    else if text = lc "Error: Invalid account state for operation" then some .invalidState
    else if text = lc "Error: Operation overflowed" then some .overflowErr
    else if text = lc "Error: Account does not support specified authority type" then some .authorityTypeNotSupported
    else if text = lc "Error: This token mint cannot freeze accounts" then some .mintCannotFreeze
    else if text = lc "Error: Account is frozen" then some .accountFrozen
    else if text = lc "Error: decimals different from the Mint decimals" then some .mintDecimalsMismatch
    else if text = lc "Error: Instruction does not support non-native tokens" then some .nonNativeNotSupported
    else if text = lc "Error: New extension type does not match already existing extensions" then some .extensionTypeMismatch
    else if text = lc "Error: Extension does not match the base type provided" then some .extensionBaseMismatch
    else if text = lc "Error: Extension already initialized on this account" then some .extensionAlreadyInitialized
    else if text = lc "Error: An account can only be closed if its confidential balance is zero" then some .confidentialTransferAccountHasBalance
    else if text = lc "Error: Account not approved for confidential transfers" then some .confidentialTransferAccountNotApproved
    else if text = lc "Error: Account not accepting deposits or transfers" then some .confidentialTransferDepositsAndTransfersDisabled
    else if text = lc "Error: ElGamal public key mismatch" then some .confidentialTransferElGamalPubkeyMismatch
    else if text = lc "Error: Balance mismatch" then some .confidentialTransferBalanceMismatch
    else if text = lc "Error: Mint has non-zero supply. Burn all tokens before closing the mint" then some .mintHasSupply
    else if text = lc "Error: No authority exists to perform the desired operation" then some .noAuthorityExists
    else if text = lc "Error: Transfer fee exceeds maximum of 10,000 basis points" then some .transferFeeExceedsMaximum
    else if text = lc "Mint required for this account to transfer tokens, use `transfer_checked` or `transfer_checked_with_fee`" then some .mintRequiredForTransfer
    else if text = lc "Calculated fee does not match expected fee" then some .feeMismatch
    else if text = lc "Fee parameters associated with zero-knowledge proofs do not match fee parameters in mint" then some .feeParametersMismatch
    else if text = lc "The owner authority cannot be changed" then some .immutableOwner
    else if text = lc "Error: An account can only be closed if its withheld fee balance is zero, harvest fees to the mint and try again" then some .accountHasWithheldTransferFees
    else if text = lc "Error: No memo in previous instruction required for recipient to receive a transfer" then some .noMemo
    else if text = lc "Transfer is disabled for this mint" then some .nonTransferable
    else if text = lc "Non-transferable tokens can\x27t be minted to an account without immutable ownership" then some .nonTransferableNeedsImmutableOwnership
    else if text = lc "The total number of `Deposit` and `Transfer` instructions to an account cannot exceed the associated `maximum_pending_balance_credit_counter`" then some .maximumPendingBalanceCreditCounterExceeded
    else if text = lc "Deposit amount exceeds maximum limit" then some .maximumDepositAmountExceeded
    else if text = lc "CPI Guard status cannot be changed in CPI" then some .cpiGuardSettingsLocked
    else if text = lc "CPI Guard is enabled, and a program attempted to transfer user funds without using a delegate" then some .cpiGuardTransferBlocked
    else if text = lc "CPI Guard is enabled, and a program attempted to burn user funds without using a delegate" then some .cpiGuardBurnBlocked
    else if text = lc "CPI Guard is enabled, and a program attempted to close an account without returning lamports to owner" then some .cpiGuardCloseAccountBlocked
    else if text = lc "CPI Guard is enabled, and a program attempted to approve a delegate" then some .cpiGuardApproveBlocked
    else if text = lc "CPI Guard is enabled, and a program attempted to add or change an authority" then some .cpiGuardSetAuthorityBlocked
    else if text = lc "Account ownership cannot be changed while CPI Guard is enabled" then some .cpiGuardOwnerChangeBlocked
    else if text = lc "Extension not found in account data" then some .extensionNotFound
    else if text = lc "Non-confidential transfers disabled" then some .nonConfidentialTransfersDisabled
    else if text = lc "Account has non-zero confidential withheld fee" then some .confidentialTransferFeeAccountHasWithheldFee
    else if text = lc "Mint or account is initialized to an invalid combination of extensions" then some .invalidExtensionCombination
    else if text = lc "Extension allocation with overwrite must use the same length" then some .invalidLengthForAlloc
    else if text = lc "Failed to decrypt a confidential transfer account" then some .accountDecryption
    else if text = lc "Failed to generate proof" then some .proofGeneration
    else if text = lc "An invalid proof instruction offset was provided" then some .invalidProofInstructionOffset
    else if text = lc "Harvest of withheld tokens to mint is disabled" then some .harvestToMintDisabled
    else if text = lc "Split proof context state accounts not supported for instruction" then some .splitProofContextStateAccountsNotSupported
    else if text = lc "Not enough proof context state accounts provided" then some .notEnoughProofContextStateAccounts
    else if text = lc "Ciphertext is malformed" then some .malformedCiphertext
    else if text = lc "Ciphertext arithmetic failed" then some .ciphertextArithmeticFailed
    else if text = lc "Pedersen commitments did not match" then some .pedersenCommitmentMismatch
    else if text = lc "Range proof lengths did not match" then some .rangeProofLengthMismatch
    else if text = lc "Illegal transfer amount bit length" then some .illegalBitLength
    else if text = lc "Transfer fee calculation failed" then some .feeCalculation
    else if text = lc "Conversions from normal to confidential token balance and vice versa are illegal if the confidential-mint-burn extension is enabled" then some .illegalMintBurnConversion
    else if text = lc "Invalid scale for scaled ui amount" then some .invalidScale
    else if text = lc "Transferring, minting, and burning is paused on this mint" then some .mintPaused
    else if text = lc "Key rotation attempted while pending balance is not zero" then some .pendingBalanceNonZero
  else none

/-- Renderer `Token2022ErrorLog::as_str` (program_logs/token_2022.rs
lines 265-398). -/
def token2022ErrorLogAsStr : Token2022ErrorLog → List Char
  | .notRentExempt => lc "Error: Lamport balance below rent-exempt threshold"
  | .insufficientFunds => lc "Error: insufficient funds"
  | .invalidMint => lc "Error: Invalid Mint"
  | .mintMismatch => lc "Error: Account not associated with this Mint"
  | .ownerMismatch => lc "Error: owner does not match"
  | .fixedSupply => lc "Error: the total supply of this token is fixed"
  | .alreadyInUse => lc "Error: account or token already in use"
  | .invalidNumberOfProvidedSigners => lc "Error: Invalid number of provided signers"
  | .invalidNumberOfRequiredSigners => lc "Error: Invalid number of required signers"
  | .uninitializedState => lc "Error: State is uninitialized"
  | .nativeNotSupported => lc "Error: Instruction does not support native tokens"
  | .nonNativeHasBalance => lc "Error: Non-native account can only be closed if its balance is zero"
  | .invalidInstruction => lc "Error: Invalid instruction"
  | .invalidState => lc "Error: Invalid account state for operation"
  | .overflowErr => lc "Error: Operation overflowed"
  | .authorityTypeNotSupported => lc "Error: Account does not support specified authority type"
  | .mintCannotFreeze => lc "Error: This token mint cannot freeze accounts"
  | .accountFrozen => lc "Error: Account is frozen"
  | .mintDecimalsMismatch => lc "Error: decimals different from the Mint decimals"
  | .nonNativeNotSupported => lc "Error: Instruction does not support non-native tokens"
  | .extensionTypeMismatch => lc "Error: New extension type does not match already existing extensions"
  | .extensionBaseMismatch => lc "Error: Extension does not match the base type provided"
  | .extensionAlreadyInitialized => lc "Error: Extension already initialized on this account"
  | .confidentialTransferAccountHasBalance => lc "Error: An account can only be closed if its confidential balance is zero"
  | .confidentialTransferAccountNotApproved => lc "Error: Account not approved for confidential transfers"
  | .confidentialTransferDepositsAndTransfersDisabled => lc "Error: Account not accepting deposits or transfers"
  | .confidentialTransferElGamalPubkeyMismatch => lc "Error: ElGamal public key mismatch"
  | .confidentialTransferBalanceMismatch => lc "Error: Balance mismatch"
  | .mintHasSupply => lc "Error: Mint has non-zero supply. Burn all tokens before closing the mint"
  | .noAuthorityExists => lc "Error: No authority exists to perform the desired operation"
  | .transferFeeExceedsMaximum => lc "Error: Transfer fee exceeds maximum of 10,000 basis points"
  | .mintRequiredForTransfer => lc "Mint required for this account to transfer tokens, use `transfer_checked` or `transfer_checked_with_fee`"
  | .feeMismatch => lc "Calculated fee does not match expected fee"
  | .feeParametersMismatch => lc "Fee parameters associated with zero-knowledge proofs do not match fee parameters in mint"
  | .immutableOwner => lc "The owner authority cannot be changed"
  | .accountHasWithheldTransferFees => lc "Error: An account can only be closed if its withheld fee balance is zero, harvest fees to the mint and try again"
  | .noMemo => lc "Error: No memo in previous instruction required for recipient to receive a transfer"
  | .nonTransferable => lc "Transfer is disabled for this mint"
  | .nonTransferableNeedsImmutableOwnership => lc "Non-transferable tokens can\x27t be minted to an account without immutable ownership"
  | .maximumPendingBalanceCreditCounterExceeded => lc "The total number of `Deposit` and `Transfer` instructions to an account cannot exceed the associated `maximum_pending_balance_credit_counter`"
  | .maximumDepositAmountExceeded => lc "Deposit amount exceeds maximum limit"
  | .cpiGuardSettingsLocked => lc "CPI Guard status cannot be changed in CPI"
  | .cpiGuardTransferBlocked => lc "CPI Guard is enabled, and a program attempted to transfer user funds without using a delegate"
  | .cpiGuardBurnBlocked => lc "CPI Guard is enabled, and a program attempted to burn user funds without using a delegate"
  | .cpiGuardCloseAccountBlocked => lc "CPI Guard is enabled, and a program attempted to close an account without returning lamports to owner"
  | .cpiGuardApproveBlocked => lc "CPI Guard is enabled, and a program attempted to approve a delegate"
  | .cpiGuardSetAuthorityBlocked => lc "CPI Guard is enabled, and a program attempted to add or change an authority"
  | .cpiGuardOwnerChangeBlocked => lc "Account ownership cannot be changed while CPI Guard is enabled"
  | .extensionNotFound => lc "Extension not found in account data"
  | .nonConfidentialTransfersDisabled => lc "Non-confidential transfers disabled"
  | .confidentialTransferFeeAccountHasWithheldFee => lc "Account has non-zero confidential withheld fee"
  | .invalidExtensionCombination => lc "Mint or account is initialized to an invalid combination of extensions"
  | .invalidLengthForAlloc => lc "Extension allocation with overwrite must use the same length"
  | .accountDecryption => lc "Failed to decrypt a confidential transfer account"
  | .proofGeneration => lc "Failed to generate proof"
  | .invalidProofInstructionOffset => lc "An invalid proof instruction offset was provided"
  | .harvestToMintDisabled => lc "Harvest of withheld tokens to mint is disabled"
  | .splitProofContextStateAccountsNotSupported => lc "Split proof context state accounts not supported for instruction"
  | .notEnoughProofContextStateAccounts => lc "Not enough proof context state accounts provided"
  | .malformedCiphertext => lc "Ciphertext is malformed"
  | .ciphertextArithmeticFailed => lc "Ciphertext arithmetic failed"
  | .pedersenCommitmentMismatch => lc "Pedersen commitments did not match"
  | .rangeProofLengthMismatch => lc "Range proof lengths did not match"
  | .illegalBitLength => lc "Illegal transfer amount bit length"
  | .feeCalculation => lc "Transfer fee calculation failed"
  | .illegalMintBurnConversion => lc "Conversions from normal to confidential token balance and vice versa are illegal if the confidential-mint-burn extension is enabled"
  | .invalidScale => lc "Invalid scale for scaled ui amount"
  | .mintPaused => lc "Transferring, minting, and burning is paused on this mint"
  | .pendingBalanceNonZero => lc "Key rotation attempted while pending balance is not zero"


/-- Key index: lookup from 32 raw key bytes to the 1-based registry id;
`none` stands for a key that is not a member of the registry. -/
def KeyIdx : Type := List Nat → Option Nat

/-- Key store: keys in file order; id 1 is the first key (`KeyStore::get`). -/
def storeGet (store : List (List Nat)) (id : Nat) : Option (List Nat) :=
  if id = 0 then none else store.get? (id - 1)

/-- Resolve a string id in the string table (`StringTable::resolve`). -/
def stResolve (st : List (List Char)) (id : Nat) : List Char :=
  st.getD id []

/-- Resolve a data id in the data table (`DataTable::resolve`). -/
def dtResolve (dt : List (List (List Nat))) (id : Nat) : List (List Nat) :=
  dt.getD id []

/-- Helper `lookup_pubkey_id_or_none` (program_logs/token_2022.rs
lines 462-466): base58 parse failure is `none`; a parsed key absent from the
registry makes `lookup_unchecked` panic. -/
def lookupPubkeyIdOrNone (index : KeyIdx) (pk_txt : List Char) :
    Except String (Option Nat) :=
  match pubkey_from_str (trimL pk_txt) with
  | none => .ok none
  | some pk =>
    match index pk with
    | some id => .ok (some id)
    | none => .error "lookup_unchecked: key absent from registry"

/-- Renderer helper `pubkey_id_to_string` (program_logs/token_2022.rs
lines 468-479): id 0 and out-of-bounds ids render to sentinel text. -/
def pubkeyIdToString (store : List (List Nat)) (id : Nat) : List Char :=
  if id = 0 then lc "<invalid-pubkey-id-0>"
  else
    match storeGet store id with
    | none => lc "<pubkey-id-oob:" ++ natToDec id ++ lc ">"
    | some k => base58Encode k

/-- Helper `parse_one_braced` (program_logs/token_2022.rs lines 481-486). -/
def parseOneBraced (text pre suf : List Char) : Option (List Char) :=
  match stripPreL pre text with
  | none => none
  | some rest =>
    match stripSufL suf rest with
    | none => none
    | some inner => some (trimL inner)

/-- Helper `parse_two_braced` (program_logs/token_2022.rs lines 488-493). -/
def parseTwoBraced (text pre mid : List Char) :
    Option (List Char × List Char) :=
  match stripPreL pre text with
  | none => none
  | some rest =>
    match splitOnceL rest mid with
    | none => none
    | some (a, b) => some (trimL a, trimL b)

/-- Parser `Token2022Log::parse` (program_logs/token_2022.rs lines 402-436):
the error table; then `account needs resize, +N bytes` (the second identical
matcher in the source is a no-op, `Debug2` stays unproduced); then
`Error harvesting from PK: msg` with the pubkey resolved through the registry
(parse failure falls through, absence panics) and the message interned. -/
def token2022LogParse (index : KeyIdx) (payload : List Char)
    (st : List (List Char)) :
    Except String (Option Token2022Log × List (List Char)) :=
  match token2022ErrorLogParse payload with
  | some e => .ok (some (.errorLog e), st)
  | none =>
    let resize :=
      match parseOneBraced payload (lc "account needs resize, +") (lc " bytes") with
      | some x => rustParseUsize x
      | none => none
    match resize with
    | some bytes => .ok (some (.accountNeedsResizePlusBytesDebug bytes), st)
    | none =>
      match parseTwoBraced payload (lc "Error harvesting from ") (lc ": ") with
      | none => .ok (none, st)
      | some (a, b) =>
        match lookupPubkeyIdOrNone index a with
        | .error e => .error e
        | .ok none => .ok (none, st)
        | .ok (some account_key) =>
          let p := stPush st b
          .ok (some (.errorHarvestingFrom account_key p.1), p.2)

/-- Renderer `Token2022Log::as_str` (program_logs/token_2022.rs
lines 438-459): the four harvesting variants share one text form, as do the
two resize variants. -/
def token2022LogAsStr (log : Token2022Log) (st : List (List Char))
    (store : List (List Nat)) : List Char :=
  match log with
  | .errorLog e => token2022ErrorLogAsStr e
  | .accountNeedsResizePlusBytesDebug bytes =>
    lc "account needs resize, +" ++ natToDec bytes ++ lc " bytes"
  | .accountNeedsResizePlusBytesDebug2 bytes =>
    lc "account needs resize, +" ++ natToDec bytes ++ lc " bytes"
  | .errorHarvestingFrom account_key error =>
    lc "Error harvesting from " ++ pubkeyIdToString store account_key ++
      lc ": " ++ stResolve st error
  | .errorHarvestingFrom2 account_key error =>
    lc "Error harvesting from " ++ pubkeyIdToString store account_key ++
      lc ": " ++ stResolve st error
  | .errorHarvestingFrom3 account_key error =>
    lc "Error harvesting from " ++ pubkeyIdToString store account_key ++
      lc ": " ++ stResolve st error
  | .errorHarvestingFrom4 account_key error =>
    lc "Error harvesting from " ++ pubkeyIdToString store account_key ++
      lc ": " ++ stResolve st error


/-- Parser `SystemInstructionLog::parse` (program_logs/system_program.rs
lines 82-87). -/
def systemInstructionLogParse (name : List Char) : Option SystemInstructionLog :=
  if name = lc "RevokePendingActivation" then some .revokePendingActivation
  else none

/-- Renderer `SystemInstructionLog::as_str` (program_logs/system_program.rs
lines 90-94). -/
def systemInstructionLogAsStr : SystemInstructionLog → List Char
  | .revokePendingActivation => lc "Instruction: RevokePendingActivation"

/-- Helper `parse_u64_commas` (program_logs/system_program.rs lines 98-100). -/
def parseU64Commas (s : List Char) : Option Nat :=
  rustParseUnsigned 18446744073709551616 (removeCharL (trimL s) (Char.ofNat 44))

/-- Helper `parse_pubkey_id` (program_logs/system_program.rs lines 104-107):
base58 parse failure gives `none`; a parsed key absent from the registry
makes `lookup_unchecked` panic. -/
def parsePubkeyId (index : KeyIdx) (pk_txt : List Char) :
    Except String (Option Nat) :=
  match pubkey_from_str (trimL pk_txt) with
  | none => .ok none
  | some pk =>
    match index pk with
    | some id => .ok (some id)
    | none => .error "lookup_unchecked: key absent from registry"

/-- Helper `parse_between` (program_logs/system_program.rs lines 123-129):
the line must start with the prefix and end with the suffix; the middle is
taken with `&line[prefix.len()..line.len()-suffix.len()]`, which panics when
the two overlap. -/
def parseBetween (line pre suf : List Char) :
    Except String (Option (List Char)) :=
  if pre.isPrefixOf line ∧ suf.isSuffixOf line then
    if line.length - suf.length < pre.length then
      .error "slice index starts at greater index than it ends"
    else .ok (some ((line.take (line.length - suf.length)).drop pre.length))
  else .ok none

/-- Helper `parse_debug_address_to_pubkey_id`
(program_logs/system_program.rs lines 140-162): accepts both the debug form
`Address { address: PK }` and a bare pubkey. -/
def parseDebugAddressToPubkeyId (index : KeyIdx) (addr_txt : List Char) :
    Except String (Option Nat) :=
  let s := trimL addr_txt
  match stripPreL (lc "Address \x7b") s with
  | some inner0 =>
    let inner1 := trimL inner0
    let inner2 :=
      match stripPreL (lc "address:") inner1 with
      | some r => some r
      | none => stripPreL (lc "address :") inner1
    match inner2 with
    | none => .ok none
    | some r =>
      let inner := trimL r
      let endPos :=
        (findCharL inner
          (fun c => rsIsWhitespace c || c = Char.ofNat 125)).getD inner.length
      let pk_txt := trimEndMatchesL (trimL (inner.take endPos)) (Char.ofNat 125)
      parsePubkeyId index pk_txt
  | none => parsePubkeyId index s


/-- Sequencing combinator for a chain of early-return matchers, as the
sequential `if let` arms in the source: an error (panic) propagates, a match
stops the chain, a non-match falls through to the next arm. -/
def tryArm (α : Type) (a : Except String (Option α))
    (k : Unit → Except String (Option α)) : Except String (Option α) :=
  match a with
  | .error e => .error e
  | .ok (some r) => .ok (some r)
  | .ok none => k ()

/-- Parser `SystemProgramLog::parse` (program_logs/system_program.rs
lines 167-280): the matchers in source order. A matched arm whose sub-parse
fails through the question-mark operator makes the whole function return
`none` (no later arm runs); an arm whose shape test fails falls through. The
outer option is the fall-through state, the inner pair is the function
result. -/
def systemProgramLogParse (index : KeyIdx) (text0 : List Char)
    (st : List (List Char)) :
    Except String (Option SystemProgramLog × List (List Char)) :=
  let text := trimL text0
  let done : Option SystemProgramLog → List (List Char) →
      Except String (Option (Option SystemProgramLog × List (List Char))) :=
    fun r s => .ok (some (r, s))
  let res :=
    tryArm _
      (match stripPreL (lc "Instruction: ") text with
       | some nameRest =>
         let name := trimL nameRest
         (match systemInstructionLogParse name with
          | some ix => done (some (.instruction ix)) st
          | none => done none st)
       | none => .ok none) fun _ =>
    tryArm _
      (match stripPreL (lc "Create: address ") text with
       | some rest =>
         (match findSubL rest (lc " does not match derived address ") with
          | some mid =>
            let provided_txt := trimL (rest.take mid)
            let derived_txt :=
              trimL (rest.drop (mid + (lc " does not match derived address ").length))
            (match parsePubkeyId index provided_txt with
             | .error e => .error e
             | .ok none => done none st
             | .ok (some provided) =>
               match parsePubkeyId index derived_txt with
               | .error e => .error e
               | .ok none => done none st
               | .ok (some derived) =>
                 done (some (.createAddressMismatch provided derived)) st)
          | none => .ok none)
       | none => .ok none) fun _ =>
    tryArm _
      (match stripPreL (lc "Transfer: \x27from\x27 address ") text with
       | some rest =>
         (match findSubL rest (lc " does not match derived address ") with
          | some mid =>
            let provided_txt := trimL (rest.take mid)
            let derived_txt :=
              trimL (rest.drop (mid + (lc " does not match derived address ").length))
            (match parsePubkeyId index provided_txt with
             | .error e => .error e
             | .ok none => done none st
             | .ok (some provided) =>
               match parsePubkeyId index derived_txt with
               | .error e => .error e
               | .ok none => done none st
               | .ok (some derived) =>
                 done (some (.transferFromAddressMismatch provided derived)) st)
          | none => .ok none)
       | none => .ok none) fun _ =>
    tryArm _
      (match parseBetween text (lc "Create Account: account ") (lc " already in use") with
       | .error e => .error e
       | .ok (some addr_txt) =>
         (match parseDebugAddressToPubkeyId index addr_txt with
          | .error e => .error e
          | .ok none => done none st
          | .ok (some addr) => done (some (.createAccountAlreadyInUse addr)) st)
       | .ok none => .ok none) fun _ =>
    tryArm _
      (match parseBetween text (lc "Allocate: account ") (lc " already in use") with
       | .error e => .error e
       | .ok (some addr_txt) =>
         (match parseDebugAddressToPubkeyId index addr_txt with
          | .error e => .error e
          | .ok none => done none st
          | .ok (some addr) => done (some (.allocateAlreadyInUse addr)) st)
       | .ok none => .ok none) fun _ =>
    tryArm _
      (match parseBetween text (lc "Allocate: \x27to\x27 account ") (lc " must sign") with
       | .error e => .error e
       | .ok (some addr_txt) =>
         (match parseDebugAddressToPubkeyId index addr_txt with
          | .error e => .error e
          | .ok none => done none st
          | .ok (some addr) => done (some (.allocateToMustSign addr)) st)
       | .ok none => .ok none) fun _ =>
    tryArm _
      (match parseBetween text (lc "Assign: account ") (lc " must sign") with
       | .error e => .error e
       | .ok (some addr_txt) =>
         (match parseDebugAddressToPubkeyId index addr_txt with
          | .error e => .error e
          | .ok none => done none st
          | .ok (some addr) => done (some (.assignAccountMustSign addr)) st)
       | .ok none => .ok none) fun _ =>
    tryArm _
      (match stripPreL (lc "Allocate: requested ") text with
       | some rest =>
         (match findSubL rest (lc ", max allowed ") with
          | some pos =>
            (match parseU64Commas (rest.take pos) with
             | none => done none st
             | some requested =>
               match parseU64Commas (rest.drop (pos + (lc ", max allowed ").length)) with
               | none => done none st
               | some max_allowed =>
                 done (some (.allocateRequestedTooLarge requested max_allowed)) st)
          | none => .ok none)
       | none => .ok none) fun _ =>
    tryArm _
      (if text = lc "Transfer: `from` must not carry data" then
         done (some .transferFromMustNotCarryData) st
       else .ok none) fun _ =>
    tryArm _
      (match stripPreL (lc "Transfer: `from` account ") text with
       | some rest =>
         (match stripSufL (lc " must sign") rest with
          | some pk_txt =>
            (match parsePubkeyId index (trimL pk_txt) with
             | .error e => .error e
             | .ok none => done none st
             | .ok (some fromAddr) => done (some (.transferFromMustSign fromAddr)) st)
          | none => .ok none)
       | none => .ok none) fun _ =>
    tryArm _
      (match stripPreL (lc "Transfer: insufficient lamports ") text with
       | some rest =>
         (match findSubL rest (lc ", need ") with
          | some pos =>
            (match parseU64Commas (rest.take pos) with
             | none => done none st
             | some haveAmt =>
               match parseU64Commas (rest.drop (pos + (lc ", need ").length)) with
               | none => done none st
               | some needAmt =>
                 done (some (.transferInsufficient haveAmt needAmt)) st)
          | none =>
            let p := stPush st text
            done (some (.unparsedText p.1)) p.2)
       | none => .ok none) fun _ =>
    tryArm _
      (if text = lc "Advance nonce account: recent blockhash list is empty" then
         done (some .advanceNonceRecentBlockhashesEmpty) st
       else .ok none) fun _ =>
    tryArm _
      (if text = lc "Initialize nonce account: recent blockhash list is empty" then
         done (some .initializeNonceRecentBlockhashesEmpty) st
       else .ok none) fun _ =>
    tryArm _
      (match stripPreL (lc "Authorize nonce account: ") text with
       | some msg =>
         let p := stPush st msg
         done (some (.authorizeNonceAccount p.1)) p.2
       | none => .ok none) fun _ =>
    done none st
  match res with
  | .error e => .error e
  | .ok (some r) => .ok r
  | .ok none => .ok (none, st)

/-- Renderer `SystemProgramLog::render` (program_logs/system_program.rs
lines 283-364); pubkey ids are rendered through `pubkey_id_to_pubkey`, which
panics on id 0 and on out-of-bounds ids. -/
def systemProgramLogRender (log : SystemProgramLog) (st : List (List Char))
    (store : List (List Nat)) : Except String (List Char) :=
  let pk : Nat → Except String (List Char) := fun id =>
    if id = 0 then .error "SystemProgramLog: PubkeyId=0 is reserved/invalid"
    else
      match storeGet store id with
      | none => .error "SystemProgramLog: PubkeyId out of bounds"
      | some k => .ok (base58Encode k)
  match log with
  | .instruction ix => .ok (systemInstructionLogAsStr ix)
  | .createAddressMismatch provided derived =>
    (match pk provided, pk derived with
     | .ok a, .ok b =>
       .ok (lc "Create: address " ++ a ++ lc " does not match derived address " ++ b)
     | .error e, _ => .error e
     | _, .error e => .error e)
  | .transferFromAddressMismatch provided derived =>
    (match pk provided, pk derived with
     | .ok a, .ok b =>
       .ok (lc "Transfer: \x27from\x27 address " ++ a ++
            lc " does not match derived address " ++ b)
     | .error e, _ => .error e
     | _, .error e => .error e)
  | .createAccountAlreadyInUse addr =>
    (pk addr).map (fun a => lc "Create Account: account " ++ a ++ lc " already in use")
  | .createAccountAccountAlreadyInUse addr =>
    (pk addr).map (fun a => lc "Create Account: account " ++ a ++ lc " already in use")
  | .allocateAlreadyInUse addr =>
    (pk addr).map (fun a => lc "Allocate: account " ++ a ++ lc " already in use")
  | .allocateAccountAlreadyInUse addr =>
    (pk addr).map (fun a => lc "Allocate: account " ++ a ++ lc " already in use")
  | .allocateToMustSign addr =>
    (pk addr).map (fun a => lc "Allocate: \x27to\x27 account " ++ a ++ lc " must sign")
  | .assignAccountMustSign addr =>
    (pk addr).map (fun a => lc "Assign: account " ++ a ++ lc " must sign")
  | .allocateRequestedTooLarge requested max_allowed =>
    .ok (lc "Allocate: requested " ++ natToDec requested ++
         lc ", max allowed " ++ natToDec max_allowed)
  | .transferFromMustNotCarryData =>
    .ok (lc "Transfer: `from` must not carry data")
  | .transferFromMustSign fromAddr =>
    (pk fromAddr).map (fun a => lc "Transfer: `from` account " ++ a ++ lc " must sign")
  | .transferInsufficient haveAmt needAmt =>
    .ok (lc "Transfer: insufficient lamports " ++ natToDec haveAmt ++
         lc ", need " ++ natToDec needAmt)
  | .advanceNonceRecentBlockhashesEmpty =>
    .ok (lc "Advance nonce account: recent blockhash list is empty")
  | .initializeNonceRecentBlockhashesEmpty =>
    .ok (lc "Initialize nonce account: recent blockhash list is empty")
  | .authorizeNonceAccount msg =>
    .ok (lc "Authorize nonce account: " ++ stResolve st msg)
  | .unparsedText text => .ok (stResolve st text)


/-- Parser `parse_anchor_instruction` (program_logs/mod.rs lines 239-247). -/
def parseAnchorInstruction (text : List Char) (st : List (List Char)) :
    Option (ProgramLog × List (List Char)) :=
  match stripPreL (lc "Instruction: ") text with
  | none => none
  | some rest =>
    let name := trimL rest
    if name.isEmpty then none
    else
      let p := stPush st name
      some (.anchorInstruction p.1, p.2)

/-- Parser `parse_error_fields` (program_logs/mod.rs lines 277-286): the code
string is interned before the number is parsed, so a failed number parse
leaves the code behind in the table. -/
def parseErrorFields (text : List Char) (st : List (List Char)) :
    Option (Nat × Nat × Nat) × List (List Char) :=
  match splitOnceL text (lc ". Error Number: ") with
  | none => (none, st)
  | some (code_str, tail) =>
    match splitOnceL tail (lc ". Error Message: ") with
    | none => (none, st)
    | some (num_str, msg_str) =>
      let pc := stPush st (trimL code_str)
      match rustParseU32 (trimL num_str) with
      | none => (none, pc.2)
      | some number =>
        let msg0 := match stripSufL (lc ".") msg_str with
          | some m => m
          | none => msg_str
        let pm := stPush pc.2 (trimL msg0)
        (some (pc.1, number, pm.1), pm.2)

/-- Parser `parse_anchor_error` (program_logs/mod.rs lines 249-275): the
`thrown` form interns the file before parsing the line number; the `occurred`
form has no location. -/
def parseAnchorError (text : List Char) (st : List (List Char)) :
    Option ProgramLog × List (List Char) :=
  match stripPreL (lc "AnchorError thrown in ") text with
  | some rest =>
    (match splitOnceL rest (lc ". Error Code: ") with
     | none => (none, st)
     | some (loc, tail) =>
       match rfindCharL loc (Char.ofNat 58) with
       | none => (none, st)
       | some colon =>
         let pf := stPush st (trimL (loc.take colon))
         match rustParseU32 (trimL (loc.drop (colon + 1))) with
         | none => (none, pf.2)
         | some line =>
           match parseErrorFields tail pf.2 with
           | (none, st2) => (none, st2)
           | (some (code, number, msg), st2) =>
             (some (.anchorErrorThrown pf.1 line code number msg), st2))
  | none =>
    match stripPreL (lc "AnchorError occurred. Error Code: ") text with
    | some rest =>
      (match parseErrorFields rest st with
       | (none, st2) => (none, st2)
       | (some (code, number, msg), st2) =>
         (some (.anchorErrorOccurred code number msg), st2))
    | none => (none, st)

/-- Dispatcher `parse_program_log_no_id` (program_logs/mod.rs lines 49-95):
token, the ATA error table, anchor instructions, token-2022, then the
submodules absent from src (modelled from the spec as closed-set matchers
that do not match), anchor errors, and finally `Unknown` with the payload
interned. -/
def parseProgramLogNoId (index : KeyIdx) (payload : List Char)
    (st : List (List Char)) : Except String (ProgramLog × List (List Char)) :=
  match tokenLogParse payload with
  | some t => .ok (.token t, st)
  | none =>
  match ataErrorLogParse payload with
  | some t => .ok (.ata t, st)
  | none =>
  match parseAnchorInstruction payload st with
  | some (ev, st2) => .ok (ev, st2)
  | none =>
  match token2022LogParse index payload st with
  | .error e => .error e
  | .ok (some t, st2) => .ok (.token2022 t, st2)
  | .ok (none, st2) =>
    match parseAnchorError payload st2 with
    | (some ev, st3) => .ok (ev, st3)
    | (none, st3) =>
      let p := stPush st3 payload
      .ok (.unknown p.1, p.2)

/-- Program id of SPL Token (program_logs/token.rs line 4). -/
def TOKEN_STR_ID : List Char := lc "TokenkegQfeZyiNwAJbNbGKPFXCWuBvf9Ss623VQ5DA"

/-- Program id of SPL Token-2022 (program_logs/token_2022.rs line 9). -/
def TOKEN2022_STR_ID : List Char := lc "TokenzQdBNbLqP5VEhdkAS6EPFLC1PHnBqCXEpPxuEb"

/-- Program id of the Associated Token Account program
(program_logs/associated_token_account.rs line 3). -/
def ATA_STR_ID : List Char := lc "ATokenGPvbdGVxr1b2hvZbsiqW5xWH25efTNsLJA8knL"

/-- Dispatcher `try_parse_program_log_with_table` (program_logs/mod.rs
lines 127-196): the per-program parser selected by the program id string; a
parser of an absent submodule is modelled as not matching. -/
def tryParseProgramLogWithTable (index : KeyIdx) (program payload : List Char)
    (st : List (List Char)) :
    Except String (Option ProgramLog × List (List Char)) :=
  if program = TOKEN_STR_ID then
    match tokenLogParse payload with
    | some t => .ok (some (.token t), st)
    | none => .ok (none, st)
  else if program = TOKEN2022_STR_ID then
    match token2022LogParse index payload st with
    | .error e => .error e
    | .ok (some t, st2) => .ok (some (.token2022 t), st2)
    | .ok (none, st2) => .ok (none, st2)
  else if program = ATA_STR_ID then
    match ataErrorLogParse payload with
    | some t => .ok (some (.ata t), st)
    | none => .ok (none, st)
  else .ok (none, st)

/-- Dispatcher `parse_program_log_for_program` (program_logs/mod.rs
lines 98-114). -/
def parseProgramLogForProgram (index : KeyIdx) (program payload : List Char)
    (st : List (List Char)) : Except String (ProgramLog × List (List Char)) :=
  match tryParseProgramLogWithTable index program payload st with
  | .error e => .error e
  | .ok (some log, st2) => .ok (log, st2)
  | .ok (none, st2) =>
    match parseAnchorInstruction payload st2 with
    | some (ev, st3) => .ok (ev, st3)
    | none =>
      match parseAnchorError payload st2 with
      | (some ev, st3) => .ok (ev, st3)
      | (none, st3) =>
        let p := stPush st3 payload
        .ok (.unknown p.1, p.2)

/-- Renderer `render_program_log` (program_logs/mod.rs lines 199-236). -/
def renderProgramLog (log : ProgramLog) (store : List (List Nat))
    (st : List (List Char)) : List Char :=
  match log with
  | .token t => tokenLogAsStr t
  | .token2022 t => token2022LogAsStr t st store
  | .ata t => ataErrorLogAsStr t
  | .anchorInstruction name => lc "Instruction: " ++ stResolve st name
  | .anchorErrorOccurred code number msg =>
    lc "AnchorError occurred. Error Code: " ++ stResolve st code ++
      lc ". Error Number: " ++ natToDec number ++ lc ". Error Message: " ++
      stResolve st msg ++ lc "."
  | .anchorErrorThrown file line code number msg =>
    lc "AnchorError thrown in " ++ stResolve st file ++ lc ":" ++
      natToDec line ++ lc ". Error Code: " ++ stResolve st code ++
      lc ". Error Number: " ++ natToDec number ++ lc ". Error Message: " ++
      stResolve st msg ++ lc "."
  | .unknown id => stResolve st id


/-- Compute-budget program id text, `CB_PK`
(blockzilla-format/src/compact/log.rs line 15). -/
def CB_PK : List Char := lc "ComputeBudget111111111111111111111111111111"

/-- Helper `parse_u32_commas` (log.rs lines 183-186). -/
def parseU32Commas (s : List Char) : Option Nat :=
  rustParseU32 (removeCharL (trimL s) (Char.ofNat 44))

/-- Helper `parse_consumed` (log.rs lines 188-197): strips `consumed `, finds
the first ` of ` and the first ` compute units`; the second slice
`rem[of_pos + 4..end_pos]` panics when it starts past its end, which is only
reached after the first number parsed. -/
def parseConsumed (after_pk : List Char) :
    Except String (Option (Nat × Nat)) :=
  match stripPreL (lc "consumed ") after_pk with
  | none => .ok none
  | some rem =>
    match findSubL rem (lc " of ") with
    | none => .ok none
    | some of_pos =>
      match findSubL rem (lc " compute units") with
      | none => .ok none
      | some end_pos =>
        match parseU32Commas (rem.take of_pos) with
        | none => .ok none
        | some used =>
          if end_pos < of_pos + 4 then
            .error "slice index starts at greater index than it ends"
          else
            match parseU32Commas ((rem.take end_pos).drop (of_pos + 4)) with
            | none => .ok none
            | some limit => .ok (some (used, limit))

/-- Helper `parse_custom_program_error_reason` (log.rs lines 204-208). -/
def parseCustomProgramErrorReason (s : List Char) : Option Nat :=
  match stripPreL (lc "custom program error: 0x") (trimL s) with
  | none => none
  | some hex => rustParseHexU32 (trimL hex)

/-- Helper `parse_program_log_error_payload` (log.rs lines 210-215). -/
def parseProgramLogErrorPayload (s : List Char) : Option (List Char) :=
  match stripPreL (lc "Error: ") (trimL s) with
  | none => none
  | some msg => some (trimL msg)

/-- Classifier `classify_failed_reason` (log.rs lines 217-239). -/
inductive FailedReasonClass where
  | custom (code : Nat)
  | invalidAccountData
  | invalidProgramArgument
  | otherReason (r : List Char)
deriving DecidableEq, Repr

/-- Classification of the text after `failed: ` (log.rs lines 224-239). -/
def classifyFailedReason (reason : List Char) : FailedReasonClass :=
  let r := trimL reason
  match parseCustomProgramErrorReason r with
  | some code => .custom code
  | none =>
    if r = lc "invalid account data for instruction" then .invalidAccountData
    else if r = lc "invalid program argument" then .invalidProgramArgument
    else .otherReason r

/-- Helper `decode_base64_array` (log.rs lines 241-259): empty trimmed text
pushes an empty array; otherwise each whitespace token must strictly decode
as base64, and the array of decoded blobs is pushed into the data table. -/
def decodeBase64Array (text : List Char) (dt : List (List (List Nat))) :
    Option (Nat × List (List (List Nat))) :=
  let trimmed := trimL text
  if trimmed.isEmpty then some (dtPush dt [])
  else
    let decoded := (splitWsL trimmed).mapM base64DecodeL
    match decoded with
    | none => none
    | some arr => some (dtPush dt arr)

/-- Helper `lookup_pid_or_panic` (log.rs lines 261-276): a token that does
not parse as a pubkey panics, and a parsed pubkey absent from the registry
makes `lookup_unchecked` panic. -/
def lookupPidOrPanic (index : KeyIdx) (pk_txt : List Char) :
    Except String Nat :=
  match pubkey_from_str pk_txt with
  | none => .error "log.rs: invalid pubkey token"
  | some pk =>
    match index pk with
    | some id => .ok id
    | none => .error "lookup_unchecked: key absent from registry"

/-- Classification of one log line, the loop body of `parse_logs`
(log.rs lines 300-567): the line is right-trimmed, empty lines are skipped,
and the matchers run in source order; the result is the produced event (or
none for an empty line) together with the updated tables. -/
def parseLogLine (index : KeyIdx) (cb_pid : Nat) (line0 : List Char)
    (st : List (List Char)) (dt : List (List (List Nat))) :
    Except String (Option (LogEvent × List (List Char) × List (List (List Nat)))) :=
  let line := trimEndL line0
  if line.isEmpty then .ok none
  else
    let done : LogEvent → List (List Char) → List (List (List Nat)) →
        Except String (Option (LogEvent × List (List Char) × List (List (List Nat)))) :=
      fun ev s d => .ok (some (ev, s, d))
    tryArm _
      (match systemProgramLogParse index line st with
       | .error e => .error e
       | .ok (some sys, st2) => done (.system sys) st2 dt
       | .ok (none, _) => .ok none) fun _ =>
    tryArm _
      (match stripPreL (lc "custom program error: 0x") line with
       | some hex =>
         (match rustParseHexU32 (trimL hex) with
          | some code => done (.customProgramError code) st dt
          | none => .ok none)
       | none => .ok none) fun _ =>
    tryArm _
      (match stripPreL (lc "Program failed to complete: ") line with
       | some msg =>
         let p := stPush st msg
         done (.failedToComplete p.1) p.2 dt
       | none => .ok none) fun _ =>
    tryArm _
      (match stripPreL (lc "Unknown program ") line with
       | some pk_raw =>
         let pk_txt := trimL pk_raw
         (match pubkey_from_str pk_txt with
          | some _ =>
            let p := stPush st pk_txt
            done (.unknownProgram p.1) p.2 dt
          | none =>
            let p := stPush st line
            done (.unparsed p.1) p.2 dt)
       | none => .ok none) fun _ =>
    tryArm _
      (match stripPreL (lc "Instruction references an unknown account ") line with
       | some pk_raw =>
         let pk_txt := trimL pk_raw
         (match pubkey_from_str pk_txt with
          | some _ =>
            let p := stPush st pk_txt
            done (.unknownAccount p.1) p.2 dt
          | none =>
            let p := stPush st line
            done (.unparsed p.1) p.2 dt)
       | none => .ok none) fun _ =>
    tryArm _
      (if line = lc "VerifyEd25519" then done .verifyEd25519 st dt else .ok none)
      fun _ =>
    tryArm _
      (if line = lc "VerifySecp256k1" then done .verifySecp256k1 st dt else .ok none)
      fun _ =>
    tryArm _
      (if line = lc "CloseContextState" then done .closeContextState st dt else .ok none)
      fun _ =>
    tryArm _
      (match stripPreL (lc "Program log: ") line with
       | some textRaw =>
         let text := trimL textRaw
         (match parseCustomProgramErrorReason text with
          | some code => done (.customProgramError code) st dt
          | none =>
            match parseProgramLogErrorPayload text with
            | some msg =>
              let p := stPush st msg
              done (.programLogError p.1) p.2 dt
            | none =>
              match parseProgramLogNoId index text st with
              | .error e => .error e
              | .ok (log, st2) => done (.programLog log) st2 dt)
       | none => .ok none) fun _ =>
    tryArm _
      (match stripPreL (lc "Program ") line with
       | some rest =>
         (match findSubL rest (lc " log: ") with
          | some pos =>
            let pk_txt := trimL (rest.take pos)
            let text := trimL (rest.drop (pos + (lc " log: ").length))
            (match lookupPidOrPanic index pk_txt with
             | .error e => .error e
             | .ok program =>
               match parseCustomProgramErrorReason text with
               | some code => done (.failureCustomProgramError program code) st dt
               | none =>
                 match parseProgramLogErrorPayload text with
                 | some msg =>
                   let p := stPush st msg
                   done (.programLogError p.1) p.2 dt
                 | none =>
                   match parseProgramLogForProgram index pk_txt text st with
                   | .error e => .error e
                   | .ok (log, st2) => done (.programIdLog program log) st2 dt)
          | none => .ok none)
       | none => .ok none) fun _ =>
    tryArm _
      (match stripPreL (lc "Program ") line with
       | some rest =>
         tryArm _
           (match stripPreL (lc "data: ") rest with
            | some b64 =>
              (match decodeBase64Array b64 dt with
               | some (dataId, dt2) => done (.dataEvent dataId) st dt2
               | none =>
                 let p := stPush st line
                 done (.unparsed p.1) p.2 dt)
            | none => .ok none) fun _ =>
         tryArm _
           (match stripPreL (lc "return: ") rest with
            | some tail =>
              (match splitOnceL (trimL tail) (lc " ") with
               | some (pk_txt, b64_txt) =>
                 (match lookupPidOrPanic index (trimL pk_txt) with
                  | .error e => .error e
                  | .ok program =>
                    match decodeBase64Array b64_txt dt with
                    | some (dataId, dt2) => done (.programReturn program dataId) st dt2
                    | none =>
                      let p := stPush st line
                      done (.unparsed p.1) p.2 dt)
               | none =>
                 let p := stPush st line
                 done (.unparsed p.1) p.2 dt)
            | none => .ok none) fun _ =>
         tryArm _
           (match stripPreL (lc "consumption: ") rest with
            | some rem =>
              (match findSubL rem (lc " units remaining") with
               | some pos =>
                 (match parseU32Commas (rem.take pos) with
                  | some units => done (.consumption units) st dt
                  | none =>
                    let p := stPush st line
                    done (.unparsed p.1) p.2 dt)
               | none =>
                 let p := stPush st line
                 done (.unparsed p.1) p.2 dt)
            | none => .ok none) fun _ =>
         tryArm _
           (if rest = lc "is not deployed" then
              done (.programNotDeployed none) st dt
            else .ok none) fun _ =>
         tryArm _
           (match stripSufL (lc " is not deployed") rest with
            | some pk_txt =>
              (match lookupPidOrPanic index (trimL pk_txt) with
               | .error e => .error e
               | .ok program => done (.programNotDeployed (some program)) st dt)
            | none => .ok none) fun _ =>
         (match findCharL rest (fun c => c = Char.ofNat 32) with
          | some space_pos =>
            let pk_txt := trimL (rest.take space_pos)
            let after_pk := trimL (rest.drop (space_pos + 1))
            (match lookupPidOrPanic index pk_txt with
             | .error e => .error e
             | .ok program =>
               let is_cb := program = cb_pid
               tryArm _
                 (match stripPreL (lc "invoke [") after_pk with
                  | some depth_str =>
                    (match stripSufL (lc "]") depth_str with
                     | some d =>
                       (match rustParseU32 (trimL d) with
                        | some depth_u32 =>
                          done (.invoke program (min depth_u32 255)) st dt
                        | none => .ok none)
                     | none => .ok none)
                  | none => .ok none) fun _ =>
               tryArm _
                 (if after_pk = lc "success" then done (.success program) st dt
                  else .ok none) fun _ =>
               tryArm _
                 (match stripPreL (lc "failed: ") after_pk with
                  | some reason =>
                    (match classifyFailedReason reason with
                     | .custom code =>
                       done (.failureCustomProgramError program code) st dt
                     | .invalidAccountData =>
                       done (.failureInvalidAccountData program) st dt
                     | .invalidProgramArgument =>
                       done (.failureInvalidProgramArgument program) st dt
                     | .otherReason r =>
                       let p := stPush st r
                       done (.failure program p.1) p.2 dt)
                  | none => .ok none) fun _ =>
               tryArm _
                 (match parseConsumed after_pk with
                  | .error e => .error e
                  | .ok (some (used, limit)) =>
                    done (.consumed program used limit) st dt
                  | .ok none => .ok none) fun _ =>
               tryArm _
                 (if is_cb then
                    let norm := toLowerAsciiL (removeCharL after_pk (Char.ofNat 58))
                    match stripPreL (lc "request units ") norm with
                    | some tail =>
                      (match parseU32Commas tail with
                       | some units => done (.cbRequestUnits units) st dt
                       | none => .ok none)
                    | none => .ok none
                  else .ok none) fun _ =>
               (let p := stPush st line
                done (.unparsed p.1) p.2 dt))
          | none => .ok none)
       | none => .ok none) fun _ =>
    (let p := stPush st line
     done (.plain p.1) p.2 dt)

/-- Parse loop of `parse_logs` (log.rs lines 291-574): the compute-budget id
is resolved first (a registry miss panics), then every line is classified in
order, accumulating events and the two tables. -/
def parseLogsGo (index : KeyIdx) (cb_pid : Nat) (lines : List (List Char))
    (events : List LogEvent) (st : List (List Char))
    (dt : List (List (List Nat))) : Except String CompactLogStream :=
  match lines with
  | [] => .ok { events := events, strings := st, data := dt }
  | line :: rest =>
    match parseLogLine index cb_pid line st dt with
    | .error e => .error e
    | .ok none => parseLogsGo index cb_pid rest events st dt
    | .ok (some (ev, st2, dt2)) =>
      parseLogsGo index cb_pid rest (events ++ [ev]) st2 dt2

/-- Function `parse_logs` (log.rs lines 291-574). -/
def parse_logs (index : KeyIdx) (lines : List (List Char)) :
    Except String CompactLogStream :=
  match lookupPidOrPanic index CB_PK with
  | .error e => .error e
  | .ok cb_pid => parseLogsGo index cb_pid lines [] [] []


/-- Renderer helper `pid_to_pubkey` (log.rs lines 278-289): id 0 asserts,
an out-of-bounds id panics, otherwise the stored key renders as base58. -/
def pidToPubkeyStr (store : List (List Nat)) (pid : Nat) :
    Except String (List Char) :=
  if pid = 0 then .error "log.rs: ProgramId=0 is reserved/invalid"
  else
    match storeGet store pid with
    | none => .error "log.rs: ProgramId out of bounds"
    | some k => .ok (base58Encode k)

/-- Rendering `DataTable::render_array` (log.rs lines 62-67): base64 of each
blob, joined with single spaces. -/
def renderDataArray (arr : List (List Nat)) : List Char :=
  match arr with
  | [] => []
  | [d] => base64EncodeL d
  | d :: rest => base64EncodeL d ++ lc " " ++ renderDataArray rest

/-- Rendering of one event, the match of `render_logs`
(log.rs lines 581-695). -/
def renderLogEvent (ev : LogEvent) (st : List (List Char))
    (dt : List (List (List Nat))) (store : List (List Nat)) :
    Except String (List Char) :=
  match ev with
  | .invoke program depth =>
    (pidToPubkeyStr store program).map (fun p =>
      lc "Program " ++ p ++ lc " invoke [" ++ natToDec depth ++ lc "]")
  | .consumed program used limit =>
    (pidToPubkeyStr store program).map (fun p =>
      lc "Program " ++ p ++ lc " consumed " ++ natToDec used ++ lc " of " ++
        natToDec limit ++ lc " compute units")
  | .success program =>
    (pidToPubkeyStr store program).map (fun p => lc "Program " ++ p ++ lc " success")
  | .failure program reason =>
    (pidToPubkeyStr store program).map (fun p =>
      lc "Program " ++ p ++ lc " failed: " ++ stResolve st reason)
  | .failureCustomProgramError program code =>
    (pidToPubkeyStr store program).map (fun p =>
      lc "Program " ++ p ++ lc " failed: custom program error: 0x" ++ natToHex code)
  | .failureInvalidAccountData program =>
    (pidToPubkeyStr store program).map (fun p =>
      lc "Program " ++ p ++ lc " failed: invalid account data for instruction")
  | .failureInvalidProgramArgument program =>
    (pidToPubkeyStr store program).map (fun p =>
      lc "Program " ++ p ++ lc " failed: invalid program argument")
  | .failedToComplete reason =>
    .ok (lc "Program failed to complete: " ++ stResolve st reason)
  | .system sys => systemProgramLogRender sys st store
  | .programLog log => .ok (lc "Program log: " ++ renderProgramLog log store st)
  | .programLogError msg =>
    .ok (lc "Program log: Error: " ++ stResolve st msg)
  | .programIdLog program log =>
    (pidToPubkeyStr store program).map (fun p =>
      lc "Program " ++ p ++ lc " log: " ++ renderProgramLog log store st)
  | .customProgramError code =>
    .ok (lc "custom program error: 0x" ++ natToHex code)
  | .programReturn program dataId =>
    (pidToPubkeyStr store program).map (fun p =>
      lc "Program return: " ++ p ++ lc " " ++ renderDataArray (dtResolve dt dataId))
  | .dataEvent dataId =>
    .ok (lc "Program data: " ++ renderDataArray (dtResolve dt dataId))
  | .consumption units =>
    .ok (lc "Program consumption: " ++ natToDec units ++ lc " units remaining")
  | .cbRequestUnits units =>
    .ok (lc "Program " ++ CB_PK ++ lc " request units " ++ natToDec units)
  | .programNotDeployed program =>
    (match program with
     | some pid =>
       (pidToPubkeyStr store pid).map (fun p =>
         lc "Program " ++ p ++ lc " is not deployed")
     | none => .ok (lc "Program is not deployed"))
  | .unknownProgram program =>
    .ok (lc "Unknown program " ++ stResolve st program)
  | .unknownAccount account =>
    .ok (lc "Instruction references an unknown account " ++ stResolve st account)
  | .verifyEd25519 => .ok (lc "VerifyEd25519")
  | .verifySecp256k1 => .ok (lc "VerifySecp256k1")
  | .closeContextState => .ok (lc "CloseContextState")
  | .plain text => .ok (stResolve st text)
  | .unparsed text => .ok (stResolve st text)

/-- Function `render_logs` (log.rs lines 576-699): one output line per event. -/
def render_logs (cls : CompactLogStream) (store : List (List Nat)) :
    Except String (List (List Char)) :=
  cls.events.mapM (fun ev => renderLogEvent ev cls.strings cls.data store)


/-- Recent blockhash bytes of an input transaction. -/
def txRecentBlockhash (vtx : VersionedTransactionIn) : List Nat :=
  match vtx.message with
  | .legacy m => m.recent_blockhash
  | .v0 m => m.recent_blockhash

/-- Static account keys of an input transaction. -/
def txAccountKeys (vtx : VersionedTransactionIn) : List (List Nat) :=
  match vtx.message with
  | .legacy m => m.account_keys
  | .v0 m => m.account_keys

/-- Address-table keys of an input transaction (empty for legacy). -/
def txLookupKeys (vtx : VersionedTransactionIn) : List (List Nat) :=
  match vtx.message with
  | .legacy _ => []
  | .v0 m => m.address_table_lookups.map V0AddressTableLookupIn.account_key

/-- Recent-blockhash field of an optimizer compact transaction. -/
def occTxRecent (t : OccCompactTransaction) : CompactRecentBlockhash :=
  match t.message with
  | .legacy m => m.recent_blockhash
  | .v0 m => m.recent_blockhash

/-- Minimal unsigned-varint encoder (fuel-based), used to build inputs. -/
def uvarintEnc (fuel n : Nat) : List Nat :=
  match fuel with
  | 0 => []
  | fuel + 1 => if n < 128 then [n] else (n % 128 + 128) :: uvarintEnc fuel (n / 128)

def entryCl (e : List Nat) : Nat :=
  match cid_bytes_len e with
  | .ok cl => cl
  | .error _ => 0

def entryCid (e : List Nat) : List Nat := e.take (entryCl e)

def entryPayload (e : List Nat) : List Nat := e.drop (entryCl e)

def cidOk (e : List Nat) : Bool :=
  match cid_bytes_len e with
  | .ok _ => true
  | .error _ => false

def sectionWf (e : List Nat) : Prop :=
  e.length < 2 ^ 64 ∧ cidOk e = true

instance (e : List Nat) : Decidable (sectionWf e) := by
  unfold sectionWf; infer_instance

def encSection (e : List Nat) : List Nat := uvarintEnc 10 e.length ++ e

def encGroup (es : List (List Nat)) : List Nat := (es.map encSection).flatten

def encArchive (gss : List (List (List Nat))) : List Nat := (gss.map encGroup).flatten

def groupOf (entries : List (List Nat × List Nat)) (bp : List Nat) : CarBlockGroup :=
  { payloads := entries.map Prod.snd
    cid_map := entries.enum.map (fun p => (p.2.1, p.1))
    block_payload := bp }

def groupVal (es : List (List Nat)) : CarBlockGroup :=
  groupOf (es.map (fun e => (entryCid e, entryPayload e)))
    (entryPayload (es.getLast?.getD []))

def groupWf (es : List (List Nat)) : Prop :=
  es ≠ [] ∧ (∀ e ∈ es, sectionWf e) ∧
  (∀ e ∈ es.dropLast, is_block_node (entryPayload e) = false) ∧
  is_block_node (entryPayload (es.getLast?.getD [])) = true

instance (es : List (List Nat)) : Decidable (groupWf es) := by
  unfold groupWf; infer_instance

def ruvGoE (s : List Nat) (x sh i : Nat) : Except CarErr (Nat × List Nat) :=
  match read_uvarint_go s x sh i with
  | .error e => .error e
  | .ok (v, r) => .ok (v, r.val)

def ruvE (s : List Nat) : Except CarErr (Nat × List Nat) :=
  ruvGoE s 0 0 0


/-- Index holding only the compute-budget key, used to exercise the panic on
other absent keys. -/
def cbOnlyIdx : KeyIdx := fun k => if k = CB_KEY then some 1 else none



/-- Raw bytes of the SPL-Token program key, from its base58 spelling. -/
def TOK_KEY : List Nat := (pubkey_from_str TOKEN_STR_ID).getD []

/-- Two-key index for round-trip checks: compute budget is id 1, token id 2. -/
def rtIdx : KeyIdx := fun k =>
  if k = CB_KEY then some 1 else if k = TOK_KEY then some 2 else none

def rtStore : List (List Nat) := [CB_KEY, TOK_KEY]

/-- Composition `parse_logs` after `render_logs` over one stream. -/
def roundTrip (index : KeyIdx) (store : List (List Nat))
    (S : CompactLogStream) : Except String CompactLogStream :=
  match render_logs S store with
  | .error e => .error e
  | .ok lines => parse_logs index lines

def mkS (evs : List LogEvent) (st : List (List Char))
    (dt : List (List (List Nat))) : CompactLogStream :=
  { events := evs, strings := st, data := dt }

/-- Representative compact log streams, one per canonical event shape. -/
def rtCandidates : List CompactLogStream :=
  [ mkS [.invoke 1 3] [] [],
    mkS [.success 1] [] [],
    mkS [.consumed 1 100 200] [] [],
    mkS [.failure 1 0] [lc "boom"] [],
    mkS [.failureCustomProgramError 1 26] [] [],
    mkS [.failureInvalidAccountData 1] [] [],
    mkS [.failureInvalidProgramArgument 1] [] [],
    mkS [.failedToComplete 0] [lc "oops"] [],
    mkS [.programLog (.unknown 0)] [lc "hello world"] [],
    mkS [.programLogError 0] [lc "insufficient funds"] [],
    mkS [.programIdLog 1 (.unknown 0)] [lc "hi there"] [],
    mkS [.customProgramError 5] [] [],
    mkS [.programReturn 1 0] [] [[[1,2,3]]],
    mkS [.dataEvent 0] [] [[[1,2,3]]],
    mkS [.consumption 42] [] [],
    mkS [.cbRequestUnits 7] [] [],
    mkS [.programNotDeployed none] [] [],
    mkS [.programNotDeployed (some 1)] [] [],
    mkS [.unknownProgram 0] [CB_PK] [],
    mkS [.unknownAccount 0] [CB_PK] [],
    mkS [.verifyEd25519] [] [],
    mkS [.verifySecp256k1] [] [],
    mkS [.closeContextState] [] [],
    mkS [.plain 0] [lc "just some text"] [],
    mkS [.programLog (.anchorInstruction 0)] [lc "Initialize"] [],
    mkS [.programIdLog 2 (.token .instructionTransfer)] [] [],
    mkS [.system (.createAccountAlreadyInUse 1)] [] [],
    mkS [.system .transferFromMustNotCarryData] [] [],
    mkS [.invoke 1 3, .success 1, .consumption 42] [] [] ]

def exceptOkEq (r : Except String CompactLogStream) (S : CompactLogStream) : Bool :=
  match r with
  | .ok S2 => decide (S2 = S)
  | .error _ => false


-- THEOREMS-BELOW-THIS-MARKER

/-! ## Theorems -/

/-- C4 counterexample: at slot `148 * 432000` (the first slot of epoch 148)
the claim (cutoff 157) prescribes the legacy length-prefixed decoder, but the
code dispatches to the tag-length-value (protobuf) decoder: the constant
boundary in the code is 148, not 157. -/
theorem C4_counterexample :
    slot_to_epoch (148 * 432000) < 157 ∧
    meta_schema_for (148 * 432000) = MetaSchema.protobuf ∧
    decode_transaction_status_meta Unit (fun _ => some ()) (fun _ => some ())
      (148 * 432000) [] = some (MetaSchema.protobuf, ()) := by
  refine ⟨by decide, by decide, by decide⟩

/-- C4 amended: `decode_transaction_status_meta` decodes with the legacy
(bincode) schema exactly for slots of epochs below 148, that is slots below
`148 * 432000 = 63936000`, and with the protobuf schema otherwise. -/
theorem C4_amended (μ : Type) (legacyDecode protoDecode : List Nat → Option μ)
    (slot : Nat) (bytes : List Nat) :
    decode_transaction_status_meta μ legacyDecode protoDecode slot bytes =
      (if slot < 63936000 then
        (legacyDecode bytes).map (fun m => (MetaSchema.bincode, m))
      else
        (protoDecode bytes).map (fun m => (MetaSchema.protobuf, m))) := by
  unfold decode_transaction_status_meta slot_to_epoch BINCODE_EPOCH_CUTOFF
  have : slot / 432000 < 148 ↔ slot < 63936000 := by
    rw [Nat.div_lt_iff_lt_mul (by norm_num)]
  by_cases h : slot < 63936000
  · rw [if_pos (this.mpr h), if_pos h]
  · rw [if_neg (fun hlt => h (this.mp hlt)), if_neg h]

/-- C5 counterexample: a frame whose 4-byte length announces 5 payload bytes
but whose stream holds only 3 is answered with `Ok(None)` (a clean end of
stream), not with the fatal error the claim requires for a short payload
read. -/
theorem C5_counterexample :
    postcard_framed_read (List Nat) (fun l => some l) [5, 0, 0, 0, 1, 2, 3] =
      .ok none := by
  rfl

/-- C5 amended: `PostcardFramedReader::read` returns `None` when fewer than
four bytes remain (clean EOF or truncated length prefix alike), and also when
fewer than the announced `N` payload bytes remain; with a full payload the
postcard decode decides between a value and a fatal decode error. Only
decoder failures (and I/O errors other than `UnexpectedEof`, absent from the
byte-stream model) are fatal. -/
theorem C5_amended (α : Type) (decode : List Nat → Option α) :
    (∀ s : List Nat, s.length < 4 → postcard_framed_read α decode s = .ok none)
    ∧ (∀ b0 b1 b2 b3 : Nat, ∀ rest : List Nat,
        rest.length < u32_from_le_bytes b0 b1 b2 b3 →
        postcard_framed_read α decode (b0 :: b1 :: b2 :: b3 :: rest) = .ok none)
    ∧ (∀ b0 b1 b2 b3 : Nat, ∀ rest : List Nat,
        u32_from_le_bytes b0 b1 b2 b3 ≤ rest.length →
        postcard_framed_read α decode (b0 :: b1 :: b2 :: b3 :: rest) =
          match decode (rest.take (u32_from_le_bytes b0 b1 b2 b3)) with
          | some v => .ok (some (v, rest.drop (u32_from_le_bytes b0 b1 b2 b3)))
          | none => .error "postcard decode") := by
  refine ⟨?_, ?_, ?_⟩
  · intro s hs
    match s with
    | [] => rfl
    | [_] => rfl
    | [_, _] => rfl
    | [_, _, _] => rfl
    | _ :: _ :: _ :: _ :: _ => simp at hs; omega
  · intro b0 b1 b2 b3 rest h
    simp [postcard_framed_read, h]
  · intro b0 b1 b2 b3 rest h
    simp [postcard_framed_read, Nat.not_lt.mpr h]

/-- C5 witness: the amended characterization applied to the concrete
truncated-payload stream of the counterexample and to a complete frame. -/
theorem C5_witness :
    postcard_framed_read (List Nat) (fun l => some l) [5, 0, 0, 0, 1, 2, 3] =
      .ok none ∧
    postcard_framed_read (List Nat) (fun l => some l) [2, 0, 0, 0, 7, 8, 9] =
      .ok (some ([7, 8], [9])) := by
  refine ⟨(C5_amended (List Nat) (fun l => some l)).2.1 5 0 0 0 [1, 2, 3]
    (by decide), ?_⟩
  have h := (C5_amended (List Nat) (fun l => some l)).2.2 2 0 0 0 [7, 8, 9]
    (by decide)
  rw [h]
  rfl

/-- Helper for C1: along the emission loop started at counter `c < 2^32`, the
k-th produced record carries `blockhash = (c + k) % 2^32` and
`previous_blockhash = (c + k) % 2^32 - 1`. -/
theorem compact_run_go_blockhash (τ ε : Type)
    (groups : List (BlockNode × Except ε (List τ))) (c : Nat)
    (recs : List (CompactBlockRecord τ)) (hc : c < 4294967296)
    (h : compact_run_go τ ε groups c = .ok recs) :
    ∀ k (hk : k < recs.length),
      (recs.get ⟨k, hk⟩).header.blockhash = (c + k) % 4294967296 ∧
      (recs.get ⟨k, hk⟩).header.previous_blockhash =
        (c + k) % 4294967296 - 1 := by
  induction groups generalizing c recs with
  | nil =>
    simp only [compact_run_go] at h
    cases h
    intro k hk
    simp at hk
  | cons g gs ih =>
    obtain ⟨b, txs⟩ := g
    simp only [compact_run_go] at h
    cases txs with
    | error e => simp [compact_process_block] at h
    | ok ts =>
      simp only [compact_process_block] at h
      cases hgo : compact_run_go τ ε gs (u32_wrapping_add c 1) with
      | error e => rw [hgo] at h; cases h
      | ok rs =>
        rw [hgo] at h
        cases h
        intro k hk
        match k with
        | 0 =>
          simp [List.get]
          rw [Nat.mod_eq_of_lt hc]
          exact ⟨rfl, rfl⟩
        | Nat.succ k =>
          have hrec := ih (u32_wrapping_add c 1) rs
            (Nat.mod_lt _ (by norm_num)) hgo k (by simpa using hk)
          have hmod : (u32_wrapping_add c 1 + k) % 4294967296 =
              (c + (k + 1)) % 4294967296 := by
            unfold u32_wrapping_add
            rw [Nat.mod_add_mod]
            ring_nf
          simp only [List.get] at hrec ⊢
          rw [← hmod]
          exact hrec

/-- C1: in every successful encoding-pass output, the k-th emitted block
record (k counted from 0 in emission order, with k below `2^32`) has
`header.blockhash = k`; block 0 has `previous_blockhash = 0` and every block
`k > 0` has `previous_blockhash = k - 1`. -/
theorem C1_block_ids_positional (τ ε : Type)
    (groups : List (BlockNode × Except ε (List τ)))
    (recs : List (CompactBlockRecord τ))
    (h : compact_run τ ε groups = .ok recs)
    (k : Nat) (hk : k < recs.length) (hk32 : k < 4294967296) :
    (recs.get ⟨k, hk⟩).header.blockhash = k ∧
    (k = 0 → (recs.get ⟨k, hk⟩).header.previous_blockhash = 0) ∧
    (0 < k → (recs.get ⟨k, hk⟩).header.previous_blockhash = k - 1) := by
  have := compact_run_go_blockhash τ ε groups 0 recs (by norm_num) h k hk
  rw [Nat.zero_add, Nat.mod_eq_of_lt hk32] at this
  exact ⟨this.1, fun hk0 => by subst hk0; simpa using this.2,
    fun _ => this.2⟩

/-- C1 witness: a two-group run; the second record (k = 1) has blockhash id 1
and previous id 0, the first (k = 0) has blockhash id 0 and previous id 0. -/
theorem C1_block_ids_positional_witness :
    (([⟨{ slot := 7, parent_slot := 0, blockhash := 0, previous_blockhash := 0,
           block_time := none, block_height := none }, []⟩,
       ⟨{ slot := 9, parent_slot := 0, blockhash := 1, previous_blockhash := 0,
           block_time := none, block_height := none }, []⟩] :
         List (CompactBlockRecord Unit)).get ⟨1, by decide⟩).header.blockhash
      = 1 := by
  have h : compact_run Unit Unit
      [({ slot := 7, meta := ⟨none, none, none⟩ }, .ok []),
       ({ slot := 9, meta := ⟨none, none, none⟩ }, .ok [])] =
      .ok [⟨{ slot := 7, parent_slot := 0, blockhash := 0,
              previous_blockhash := 0, block_time := none,
              block_height := none }, []⟩,
           ⟨{ slot := 9, parent_slot := 0, blockhash := 1,
              previous_blockhash := 0, block_time := none,
              block_height := none }, []⟩] := by rfl
  exact (C1_block_ids_positional Unit Unit _ _ h 1 (by decide) (by decide)).1

/-- Helper: totality of the byte-array lexicographic comparison. -/
theorem bytesLe_total (a b : List Nat) :
    (bytesLe a b || bytesLe b a) = true := by
  induction a generalizing b with
  | nil => cases b <;> simp [bytesLe]
  | cons x xs ih =>
    cases b with
    | nil => simp [bytesLe]
    | cons y ys =>
      simp only [bytesLe]
      rcases Nat.lt_trichotomy x y with h | h | h
      · simp [h]
      · subst h
        simpa using ih ys
      · simp [h, show ¬ x < y by omega]

/-- Helper: transitivity of the byte-array lexicographic comparison. -/
theorem bytesLe_trans (a : List Nat) : ∀ b c : List Nat,
    bytesLe a b = true → bytesLe b c = true → bytesLe a c = true := by
  induction a with
  | nil => intro b c _ _; cases c <;> simp [bytesLe]
  | cons x xs ih =>
    intro b c hab hbc
    cases b with
    | nil => simp [bytesLe] at hab
    | cons y ys =>
      cases c with
      | nil => simp [bytesLe] at hbc
      | cons z zs =>
        simp only [bytesLe] at hab hbc ⊢
        split at hab
        · split at hbc
          · rw [if_pos (by omega)]
          · split at hbc
            · cases hbc
            · rw [if_pos (by omega)]
        · split at hab
          · cases hab
          · split at hbc
            · rw [if_pos (by omega)]
            · split at hbc
              · cases hbc
              · rw [if_neg (show ¬ x < z by omega),
                  if_neg (show ¬ x > z by omega)]
                exact ih ys zs hab hbc

/-- Helper: totality of the registry sort comparator. -/
theorem registryCmpLe_total (a b : List Nat × Nat) :
    (registryCmpLe a b || registryCmpLe b a) = true := by
  unfold registryCmpLe
  by_cases h : a.2 = b.2
  · rw [if_pos h, if_pos h.symm]
    exact bytesLe_total a.1 b.1
  · rw [if_neg h, if_neg (Ne.symm h)]
    simp only [Bool.or_eq_true, decide_eq_true_eq]
    omega

/-- Helper: transitivity of the registry sort comparator. -/
theorem registryCmpLe_trans (a b c : List Nat × Nat)
    (hab : registryCmpLe a b = true) (hbc : registryCmpLe b c = true) :
    registryCmpLe a c = true := by
  unfold registryCmpLe at hab hbc ⊢
  by_cases h1 : a.2 = b.2 <;> by_cases h2 : b.2 = c.2
  · rw [if_pos h1] at hab
    rw [if_pos h2] at hbc
    rw [if_pos (h1.trans h2)]
    exact bytesLe_trans a.1 b.1 c.1 hab hbc
  · rw [if_pos h1] at hab
    rw [if_neg h2] at hbc
    rw [if_neg (by omega)]
    simp only [decide_eq_true_eq] at hbc ⊢
    omega
  · rw [if_neg h1] at hab
    rw [if_pos h2] at hbc
    rw [if_neg (by omega)]
    simp only [decide_eq_true_eq] at hab ⊢
    omega
  · rw [if_neg h1] at hab
    rw [if_neg h2] at hbc
    simp only [decide_eq_true_eq] at hab hbc
    rw [if_neg (by omega)]
    simp only [decide_eq_true_eq]
    omega

/-- C3 counterexample: a completed counting pass that counted a single
non-builtin key persists exactly that key; the compute-budget program key is
absent from the registry, so no builtin key is prepended and the claim that
the compute-budget key is always present fails. -/
theorem C3_counterexample :
    registry_finalize [(List.replicate 32 0, 1)] = [List.replicate 32 0] ∧
    CB_KEY ∉ registry_finalize [(List.replicate 32 0, 1)] := by
  have h : registry_finalize [(List.replicate 32 0, 1)] =
      [List.replicate 32 0] := by
    unfold registry_finalize
    rw [List.perm_singleton.mp (List.mergeSort_perm _ registryCmpLe)]
    rfl
  refine ⟨h, ?_⟩
  rw [h]
  decide

/-- C3 amended: the persisted registry is exactly the counted keys sorted by
usage count descending with ties broken by key bytes ascending — a
permutation of the counted key set, in comparator order — and no builtin key
is prepended: the compute-budget key appears in the registry exactly when the
counting pass counted it. -/
theorem C3_amended (counts : List (List Nat × Nat)) :
    (registry_finalize counts).Perm (counts.map Prod.fst) ∧
    List.Pairwise (fun a b => registryCmpLe a b = true)
      (counts.mergeSort registryCmpLe) ∧
    (CB_KEY ∈ registry_finalize counts ↔ ∃ n, (CB_KEY, n) ∈ counts) := by
  refine ⟨(List.mergeSort_perm counts registryCmpLe).map Prod.fst,
    List.sorted_mergeSort registryCmpLe_trans registryCmpLe_total counts, ?_⟩
  unfold registry_finalize
  rw [((List.mergeSort_perm counts registryCmpLe).map Prod.fst).mem_iff]
  constructor
  · intro hm
    obtain ⟨p, hp, he⟩ := List.mem_map.mp hm
    exact ⟨p.2, by simpa [← he] using hp⟩
  · intro ⟨n, hn⟩
    exact List.mem_map.mpr ⟨(CB_KEY, n), hn, rfl⟩

/-- Helper: a fold of index inserts leaves keys outside the list untouched. -/
theorem bhInsert_foldl_notmem (l : List (List Nat)) (n : Nat) (f : Nat → Int)
    (m0 : BhIndex) (k : List Nat) (hk : k ∉ l) :
    (l.enumFrom n).foldl (fun acc p => bhInsert acc p.2 (f p.1)) m0 k =
      m0 k := by
  induction l generalizing n m0 with
  | nil => rfl
  | cons x xs ih =>
    simp only [List.enumFrom, List.foldl_cons]
    rw [ih (n + 1) _ (fun hm => hk (List.mem_cons_of_mem x hm))]
    unfold bhInsert
    rw [if_neg (fun he => hk (by rw [he]; exact List.mem_cons_self x xs))]

/-- Helper: a fold of index inserts over a duplicate-free list maps the
element at position `i` to the value of its enumeration index. -/
theorem bhInsert_foldl_get (l : List (List Nat)) (hnd : l.Nodup) (n : Nat)
    (f : Nat → Int) (m0 : BhIndex) (i : Nat) (hi : i < l.length) :
    (l.enumFrom n).foldl (fun acc p => bhInsert acc p.2 (f p.1)) m0
      (l.get ⟨i, hi⟩) = some (f (n + i)) := by
  induction l generalizing n m0 i with
  | nil => simp at hi
  | cons x xs ih =>
    simp only [List.enumFrom, List.foldl_cons]
    match i with
    | 0 =>
      simp only [List.get]
      have hx : x ∉ xs := (List.nodup_cons.mp hnd).1
      rw [bhInsert_foldl_notmem xs (n + 1) f _ x hx]
      unfold bhInsert
      rw [if_pos rfl, Nat.add_zero]
    | Nat.succ i =>
      simp only [List.get]
      have harg : n + 1 + i = n + i.succ := by omega
      have := ih (List.nodup_cons.mp hnd).2 (n + 1) (bhInsert m0 x (f n)) i
        (by simpa using hi)
      rw [this, harg]

/-- Helper: the constructed registry fields, unfolded. -/
theorem blockhash_registry_new_eq (hashes tail0 : List (List Nat)) :
    blockhash_registry_new hashes tail0 =
      { hashes := hashes
        prev_tail :=
          if tail0.length > PREV_TAIL_LEN then
            tail0.drop (tail0.length - PREV_TAIL_LEN)
          else tail0
        index := fun k =>
          hashes.enumFrom 0 |>.foldl
            (fun acc p => bhInsert acc p.2 (Int.ofNat p.1))
            ((if tail0.length > PREV_TAIL_LEN then
                tail0.drop (tail0.length - PREV_TAIL_LEN)
              else tail0).enumFrom 0 |>.foldl
              (fun acc p =>
                bhInsert acc p.2
                  (-(Int.ofNat ((if tail0.length > PREV_TAIL_LEN then
                      tail0.drop (tail0.length - PREV_TAIL_LEN)
                    else tail0).length - p.1)))) (fun _ => none)) k } := by
  unfold blockhash_registry_new
  rfl

/-- C7: for every registry built by `BlockhashRegistry::new` from a
current-epoch hash list and a previous-epoch tail: the stored tail holds at
most `PREV_TAIL_LEN = 200` hashes; the hash at 0-based current-epoch position
`i` looks up to id `i ≥ 0`; the k-th newest stored tail hash (not shadowed by
the current epoch) looks up to id `-k`; a hash present in both lists gets its
current-epoch id; and resolving any looked-up id with `get` returns the
original hash. Duplicate-freedom of each list reflects that blockhashes are
unique. -/
theorem C7_blockhash_registry (hashes tail0 : List (List Nat)) :
    (blockhash_registry_new hashes tail0).prev_tail.length ≤ PREV_TAIL_LEN ∧
    (hashes.Nodup → ∀ i, ∀ hi : i < hashes.length,
      blockhash_registry_lookup (blockhash_registry_new hashes tail0)
        (hashes.get ⟨i, hi⟩) = some (Int.ofNat i)) ∧
    (∀ k h, 1 ≤ k →
      k ≤ (blockhash_registry_new hashes tail0).prev_tail.length →
      (blockhash_registry_new hashes tail0).prev_tail.Nodup →
      (blockhash_registry_new hashes tail0).prev_tail.get?
        ((blockhash_registry_new hashes tail0).prev_tail.length - k) = some h →
      h ∉ hashes →
      blockhash_registry_lookup (blockhash_registry_new hashes tail0) h =
        some (-(Int.ofNat k))) ∧
    (hashes.Nodup → ∀ i, ∀ hi : i < hashes.length,
      hashes.get ⟨i, hi⟩ ∈ (blockhash_registry_new hashes tail0).prev_tail →
      blockhash_registry_lookup (blockhash_registry_new hashes tail0)
        (hashes.get ⟨i, hi⟩) = some (Int.ofNat i)) ∧
    (hashes.Nodup → (blockhash_registry_new hashes tail0).prev_tail.Nodup →
      ∀ h id,
        blockhash_registry_lookup (blockhash_registry_new hashes tail0) h =
          some id →
        blockhash_registry_get (blockhash_registry_new hashes tail0) id =
          some h) := by
  rw [blockhash_registry_new_eq]
  set tl := (if tail0.length > PREV_TAIL_LEN then
      tail0.drop (tail0.length - PREV_TAIL_LEN)
    else tail0) with htl
  refine ⟨?_, ?_, ?_, ?_, ?_⟩
  · simp only
    rw [htl]
    split
    · simp only [List.length_drop]
      omega
    · omega
  · intro hnd i hi
    unfold blockhash_registry_lookup
    simp only
    simpa using bhInsert_foldl_get hashes hnd 0 Int.ofNat
      (List.foldl (fun acc p => bhInsert acc p.2 (-Int.ofNat (tl.length - p.1)))
        (fun _ => none) (List.enumFrom 0 tl)) i hi
  · intro k h h1k hkle hndT hget hnm
    simp only at hkle hndT hget ⊢
    unfold blockhash_registry_lookup
    simp only
    obtain ⟨hb, hgeq⟩ := List.get?_eq_some.mp hget
    rw [bhInsert_foldl_notmem hashes 0 Int.ofNat _ h hnm, ← hgeq]
    have hg := bhInsert_foldl_get tl hndT 0
      (fun i => -Int.ofNat (tl.length - i)) (fun _ => none) (tl.length - k) hb
    simp only at hg
    rw [hg]
    have harg : tl.length - (0 + (tl.length - k)) = k := by omega
    rw [harg]
  · intro hnd i hi _
    unfold blockhash_registry_lookup
    simp only
    simpa using bhInsert_foldl_get hashes hnd 0 Int.ofNat
      (List.foldl (fun acc p => bhInsert acc p.2 (-Int.ofNat (tl.length - p.1)))
        (fun _ => none) (List.enumFrom 0 tl)) i hi
  · intro hndH hndT h id hid
    unfold blockhash_registry_lookup at hid
    simp only at hndT hid ⊢
    by_cases hmem : h ∈ hashes
    · obtain ⟨⟨i, hi⟩, hgi⟩ := List.mem_iff_get.mp hmem
      rw [← hgi] at hid
      rw [bhInsert_foldl_get hashes hndH 0 Int.ofNat
        (List.foldl (fun acc p => bhInsert acc p.2 (-Int.ofNat (tl.length - p.1)))
          (fun _ => none) (List.enumFrom 0 tl)) i hi] at hid
      have hideq : id = Int.ofNat i := by
        injection hid with hv
        simp only [Int.ofNat_eq_natCast] at hv ⊢
        omega
      subst hideq
      unfold blockhash_registry_get
      rw [if_pos (by simp only [Int.ofNat_eq_natCast]; omega)]
      have ht : (Int.ofNat i).toNat = i := by
        simp only [Int.ofNat_eq_natCast]
        omega
      rw [ht, List.get?_eq_get hi, hgi]
    · rw [bhInsert_foldl_notmem hashes 0 Int.ofNat _ h hmem] at hid
      by_cases hmt : h ∈ tl
      · obtain ⟨⟨j, hj⟩, hgj⟩ := List.mem_iff_get.mp hmt
        rw [← hgj] at hid
        have hg := bhInsert_foldl_get tl hndT 0
          (fun i => -Int.ofNat (tl.length - i)) (fun _ => none) j hj
        simp only at hg
        rw [hg] at hid
        have hideq : id = -(Int.ofNat (tl.length - j)) := by
          injection hid with hv
          simp only [Int.ofNat_eq_natCast] at hv ⊢
          omega
        subst hideq
        unfold blockhash_registry_get
        rw [if_neg (by simp only [Int.ofNat_eq_natCast]; omega)]
        simp only
        rw [if_neg (by simp only [Int.ofNat_eq_natCast]; omega)]
        have h1 : (-(-(Int.ofNat (tl.length - j)))).toNat = tl.length - j := by
          simp only [Int.ofNat_eq_natCast]
          omega
        rw [h1]
        have h2 : tl.length - (tl.length - j) = j := by omega
        rw [h2, List.get?_eq_get hj, hgj]
      · rw [bhInsert_foldl_notmem tl 0
          (fun i => -Int.ofNat (tl.length - i)) (fun _ => none) h hmt] at hid
        cases hid

/-- C7 witness: a registry of two current hashes and a two-hash tail, with
one hash shared between them. The shared hash gets its current-epoch id, the
unshared tail hash gets id -2, current positions get 0 and 1, and `get`
inverts every lookup. -/
theorem C7_blockhash_registry_witness :
    (blockhash_registry_new [[1], [2]] [[3], [1]]).prev_tail.length ≤
      PREV_TAIL_LEN ∧
    blockhash_registry_lookup (blockhash_registry_new [[1], [2]] [[3], [1]])
      [2] = some (Int.ofNat 1) ∧
    blockhash_registry_lookup (blockhash_registry_new [[1], [2]] [[3], [1]])
      [3] = some (-(Int.ofNat 2)) ∧
    blockhash_registry_lookup (blockhash_registry_new [[1], [2]] [[3], [1]])
      [1] = some (Int.ofNat 0) ∧
    blockhash_registry_get (blockhash_registry_new [[1], [2]] [[3], [1]])
      (-(Int.ofNat 2)) = some [3] := by
  have hmain := C7_blockhash_registry [[1], [2]] [[3], [1]]
  refine ⟨hmain.1, ?_, ?_, ?_, ?_⟩
  · have := hmain.2.1 (by decide) 1 (by decide)
    simpa using this
  · have := hmain.2.2.1 2 [3] (by decide) (by decide) (by decide)
      (by decide) (by decide)
    simpa using this
  · have := hmain.2.2.2.1 (by decide) 0 (by decide) (by decide)
    simpa using this
  · have h3 := hmain.2.2.1 2 [3] (by decide) (by decide) (by decide)
      (by decide) (by decide)
    exact hmain.2.2.2.2 (by decide) (by decide) [3] (-(Int.ofNat 2)) h3

/-- Helper: mapping account keys through the registry succeeds when every key
is a member. -/
theorem occMapAccountKeys_ok (registry : List Nat → Option Nat)
    (keys : List (List Nat)) (h : ∀ k ∈ keys, (registry k).isSome) :
    ∃ is_, occMapAccountKeys registry keys = .ok is_ := by
  induction keys with
  | nil => exact ⟨[], rfl⟩
  | cons k ks ih =>
    have hk := h k (List.mem_cons_self k ks)
    obtain ⟨i, hi⟩ := Option.isSome_iff_exists.mp hk
    obtain ⟨is_, his⟩ := ih (fun x hx => h x (List.mem_cons_of_mem k hx))
    exact ⟨i :: is_, by simp only [occMapAccountKeys, hi, his]⟩

/-- Helper: mapping address-table lookups succeeds when every table key is a
member. -/
theorem occMapLookups_ok (registry : List Nat → Option Nat)
    (ls : List V0AddressTableLookupIn)
    (h : ∀ l ∈ ls, (registry l.account_key).isSome) :
    ∃ cs, occMapLookups registry ls = .ok cs := by
  induction ls with
  | nil => exact ⟨[], rfl⟩
  | cons l rest ih =>
    have hl := h l (List.mem_cons_self l rest)
    obtain ⟨i, hi⟩ := Option.isSome_iff_exists.mp hl
    obtain ⟨cs, hcs⟩ := ih (fun x hx => h x (List.mem_cons_of_mem l hx))
    exact ⟨{ account_key := i, writable_indexes := l.writable_indexes,
             readonly_indexes := l.readonly_indexes } :: cs,
      by simp only [occMapLookups, hi, hcs]⟩

/-- C2 counterexample: the `to_compact_transaction` of
blockzilla-format/src/compact/tx.rs fails on a legacy transaction whose
recent blockhash is absent from the blockhash index, instead of encoding an
inline nonce; the optimizer encoding pass succeeds on the same input and
produces the `Nonce`. -/
theorem C2_counterexample :
    bf_to_compact_transaction (fun _ => none) (fun _ => none)
      { signatures := [],
        message := .legacy
          { header := ⟨0, 0, 0⟩, account_keys := [],
            recent_blockhash := List.replicate 32 0, instructions := [] } } =
      .error "recent_blockhash missing from blockhash registry" ∧
    occ_to_compact_transaction (fun _ => none) (fun _ => none)
      { signatures := [],
        message := .legacy
          { header := ⟨0, 0, 0⟩, account_keys := [],
            recent_blockhash := List.replicate 32 0, instructions := [] } } =
      .ok { signatures := [],
            message := .legacy
              { header := ⟨0, 0, 0⟩, account_keys := [],
                recent_blockhash := .nonce (List.replicate 32 0),
                instructions := [] } } := by
  exact ⟨rfl, rfl⟩

/-- C2 amended: in the optimizer encoding pass
(optimize-car-archive/src/compact.rs `to_compact_transaction`, the function
`compact_process_block` calls) a transaction with a 32-byte recent blockhash
and all keys in the registry always encodes successfully: a blockhash-index
miss yields the inline `Nonce` with the original bytes, a hit yields `Id`
with the signed id. The feature-gated duplicate in
blockzilla-format/src/compact/tx.rs instead fails on a miss (see the
counterexample). -/
theorem C2_amended (registry : List Nat → Option Nat)
    (bh_index : List Nat → Option Int) (vtx : VersionedTransactionIn)
    (hkeys : ∀ k ∈ txAccountKeys vtx, (registry k).isSome)
    (hatl : ∀ k ∈ txLookupKeys vtx, (registry k).isSome)
    (hlen : (txRecentBlockhash vtx).length = 32) :
    ∃ t, occ_to_compact_transaction registry bh_index vtx = .ok t ∧
      occTxRecent t =
        (match bh_index (txRecentBlockhash vtx) with
         | some i => .id i
         | none => .nonce (txRecentBlockhash vtx)) := by
  cases hm : vtx.message with
  | legacy m =>
    obtain ⟨is_, his⟩ := occMapAccountKeys_ok registry m.account_keys
      (by simpa [txAccountKeys, hm] using hkeys)
    have hrb : txRecentBlockhash vtx = m.recent_blockhash := by
      simp [txRecentBlockhash, hm]
    rw [hrb] at hlen ⊢
    simp only [occ_to_compact_transaction, hm, his]
    rw [if_neg (by omega)]
    cases hb : bh_index m.recent_blockhash with
    | some i => exact ⟨_, rfl, rfl⟩
    | none => exact ⟨_, rfl, rfl⟩
  | v0 m =>
    obtain ⟨is_, his⟩ := occMapAccountKeys_ok registry m.account_keys
      (by simpa [txAccountKeys, hm] using hkeys)
    obtain ⟨cs, hcs⟩ := occMapLookups_ok registry m.address_table_lookups
      (fun l hl =>
        hatl l.account_key (by
          simp only [txLookupKeys, hm]
          exact List.mem_map.mpr ⟨l, hl, rfl⟩))
    have hrb : txRecentBlockhash vtx = m.recent_blockhash := by
      simp [txRecentBlockhash, hm]
    rw [hrb] at hlen ⊢
    simp only [occ_to_compact_transaction, hm, his, hcs]
    rw [if_neg (by omega)]
    cases hb : bh_index m.recent_blockhash with
    | some i => exact ⟨_, rfl, rfl⟩
    | none => exact ⟨_, rfl, rfl⟩

/-- C2 witness: the amended theorem applied to a concrete legacy transaction
whose blockhash misses an empty index, checking the inline nonce outcome. -/
theorem C2_amended_witness :
    ∃ t, occ_to_compact_transaction (fun _ => some 1) (fun _ => none)
      { signatures := [],
        message := .legacy
          { header := ⟨1, 0, 0⟩, account_keys := [List.replicate 32 7],
            recent_blockhash := List.replicate 32 3, instructions := [] } } =
      .ok t ∧
    occTxRecent t =
      (match (fun (_ : List Nat) => (none : Option Int))
          (txRecentBlockhash
            { signatures := [],
              message := .legacy
                { header := ⟨1, 0, 0⟩, account_keys := [List.replicate 32 7],
                  recent_blockhash := List.replicate 32 3,
                  instructions := [] } }) with
       | some i => CompactRecentBlockhash.id i
       | none =>
         CompactRecentBlockhash.nonce
           (txRecentBlockhash
             { signatures := [],
               message := .legacy
                 { header := ⟨1, 0, 0⟩,
                   account_keys := [List.replicate 32 7],
                   recent_blockhash := List.replicate 32 3,
                   instructions := [] } })) :=
  C2_amended (fun _ => some 1) (fun _ => none) _
    (by intro k hk; rfl) (by intro k hk; rfl) (by rfl)

/-- C9 counterexample: a token balance whose mint string is not base58 makes
`compact_token_balance` fail with the `token mint parse` error instead of
encoding the field as id 0; the counting pass omits it, so the claim holds
for counting but fails for the compact encoding of the mint. -/
theorem C9_counterexample :
    compact_token_balance (fun _ => some 1)
      { account_index := 0, mint := lc "0", owner := [], program_id := [],
        ui_token_amount := some (lc "1", 0) } =
      .error (.err "token mint parse") ∧
    count_token_balance_keys
      { account_index := 0, mint := lc "0", owner := [], program_id := [],
        ui_token_amount := some (lc "1", 0) } = [] := by
  exact ⟨rfl, rfl⟩

/-- C9 amended: owner and program_id strings that are empty or fail base58
parsing are non-fatal — the compact field receives id 0 and the key is
omitted from the counting pass, while the rest of the token balance is still
encoded; a mint string that fails parsing is also omitted from counting but
makes the compact encoding fail. -/
theorem C9_amended (index : List Nat → Option Nat) (tb : TokenBalanceIn)
    (pkm : List Nat) (i : Nat) (amountStr : List Char) (decimals amount : Nat)
    (hmint : pubkey_from_str tb.mint = some pkm)
    (hidx : index pkm = some i)
    (hamount : tb.ui_token_amount = some (amountStr, decimals))
    (hparse : rustParseU64 amountStr = some amount)
    (howner : pubkey_from_str tb.owner = none ∨ tb.owner = [])
    (hprog : pubkey_from_str tb.program_id = none ∨ tb.program_id = []) :
    compact_token_balance index tb =
      .ok { account_index := tb.account_index, mint_index := i,
            owner_index := 0, program_id_index := 0,
            amount := amount, decimals := decimals } ∧
    count_token_balance_keys tb = [pkm] := by
  have hown0 : lookup_pubkey_index_optional index tb.owner = .ok 0 := by
    unfold lookup_pubkey_index_optional
    rcases howner with h | h
    · split
      · rfl
      · rw [h]
    · rw [if_pos h]
  have hprog0 : lookup_pubkey_index_optional index tb.program_id = .ok 0 := by
    unfold lookup_pubkey_index_optional
    rcases hprog with h | h
    · split
      · rfl
      · rw [h]
    · rw [if_pos h]
  constructor
  · simp only [compact_token_balance, lookup_unchecked, hmint, hidx, hown0,
      hprog0, hamount, hparse]
  · unfold count_token_balance_keys
    simp only [hmint]
    have hoc : (if tb.owner ≠ [] then
        match pubkey_from_str tb.owner with
        | some pk => [pk]
        | none => ([] : List (List Nat))
      else []) = [] := by
      rcases howner with h | h
      · split
        · rw [h]
        · rfl
      · rw [if_neg (by simp [h])]
    have hpc : (if tb.program_id ≠ [] then
        match pubkey_from_str tb.program_id with
        | some pk => [pk]
        | none => ([] : List (List Nat))
      else []) = [] := by
      rcases hprog with h | h
      · split
        · rw [h]
        · rfl
      · rw [if_neg (by simp [h])]
    rw [hoc, hpc]
    simp

/-- C9 witness: a concrete token balance with a valid mint, an unparseable
owner string and an empty program id encodes with owner and program ids 0,
and only the mint key is counted. -/
theorem C9_amended_witness :
    compact_token_balance
      (fun k => if k = List.replicate 32 0 then some 1 else none)
      { account_index := 3, mint := lc "11111111111111111111111111111111",
        owner := lc "!", program_id := [],
        ui_token_amount := some (lc "5", 2) } =
      .ok { account_index := 3, mint_index := 1, owner_index := 0,
            program_id_index := 0, amount := 5, decimals := 2 } ∧
    count_token_balance_keys
      { account_index := 3, mint := lc "11111111111111111111111111111111",
        owner := lc "!", program_id := [],
        ui_token_amount := some (lc "5", 2) } = [List.replicate 32 0] :=
  C9_amended (fun k => if k = List.replicate 32 0 then some 1 else none) _
    (List.replicate 32 0) 1 (lc "5") 2 5
    (by decide) (by decide) rfl (by decide) (Or.inl (by decide))
    (Or.inr rfl)


theorem ruvGoE_eq (s : List Nat) (x sh i : Nat) : ruvGoE s x sh i =
    match s with
    | [] => .error (.unexpectedEof "EOF while reading uvarint")
    | b :: rest =>
      if b < 128 then
        if i + 1 = 10 ∧ b > 1 then .error (.varintOverflow "uvarint overflow")
        else .ok (x + b * 2 ^ sh, rest)
      else
        if sh + 7 > 63 then .error (.varintOverflow "uvarint too long")
        else ruvGoE rest (x + b % 128 * 2 ^ sh) (sh + 7) (i + 1) := by
  cases s with
  | nil => simp [ruvGoE, read_uvarint_go]
  | cons b rest =>
    simp only [ruvGoE]
    rw [read_uvarint_go.eq_def]
    simp only []
    by_cases hb : b < 128
    · rw [if_pos hb, if_pos hb]
      by_cases hov : i + 1 = 10 ∧ b > 1
      · rw [if_pos hov, if_pos hov]
      · rw [if_neg hov, if_neg hov]
    · rw [if_neg hb, if_neg hb]
      by_cases hsh : sh + 7 > 63
      · rw [if_pos hsh, if_pos hsh]
      · rw [if_neg hsh, if_neg hsh]
        cases hrec : read_uvarint_go rest (x + b % 128 * 2 ^ sh) (sh + 7) (i + 1) with
        | error e => simp [ruvGoE, hrec]
        | ok p => simp [ruvGoE, hrec]

theorem uvenc_ruvE (fuel : Nat) : ∀ (n x sh i : Nat) (t : List Nat),
    0 < fuel → n < 128 ^ fuel → 7 * i = sh → n * 2 ^ sh < 2 ^ 64 →
    ruvGoE (uvarintEnc fuel n ++ t) x sh i = .ok (x + n * 2 ^ sh, t) := by
  induction fuel with
  | zero => intro n x sh i t hf; omega
  | succ fuel ih =>
    intro n x sh i t _ hn hsh hbound
    by_cases h128 : n < 128
    · simp only [uvarintEnc, if_pos h128, List.cons_append, List.nil_append]
      rw [ruvGoE_eq]
      simp only []
      rw [if_pos h128]
      rw [if_neg]
      intro ⟨hi, hb⟩
      have : sh = 63 := by omega
      subst this
      have : n ≤ 1 := by
        by_contra hc
        have : 2 * 2 ^ 63 ≤ n * 2 ^ 63 := Nat.mul_le_mul_right _ (by omega)
        omega
      omega
    · simp only [uvarintEnc, if_neg h128, List.cons_append]
      rw [ruvGoE_eq]
      simp only []
      have hsh7 : ¬ sh + 7 > 63 := by
        intro hc
        have h1 : 128 * 2 ^ sh ≤ n * 2 ^ sh := Nat.mul_le_mul_right _ (by omega)
        have h2 : (2:Nat) ^ 64 ≤ 2 ^ (sh + 7) := Nat.pow_le_pow_right (by omega) (by omega)
        have h3 : (2:Nat) ^ (sh + 7) = 128 * 2 ^ sh := by ring
        omega
      rw [if_neg (by omega : ¬ (n % 128 + 128 < 128))]
      rw [if_neg hsh7]
      have hfuel : 0 < fuel := by
        rcases Nat.eq_zero_or_pos fuel with h | h
        · subst h; simp at hn; omega
        · exact h
      have hdiv : n / 128 < 128 ^ fuel := by
        rw [Nat.pow_succ] at hn
        exact Nat.div_lt_of_lt_mul (by omega)
      have hrec := ih (n / 128) (x + (n % 128 + 128) % 128 * 2 ^ sh) (sh + 7) (i + 1) t
        hfuel hdiv (by omega)
        (by
          have h3 : (2:Nat) ^ (sh + 7) = 2 ^ sh * 128 := by ring
          calc n / 128 * 2 ^ (sh + 7) = n / 128 * 128 * 2 ^ sh := by rw [h3]; ring
            _ ≤ n * 2 ^ sh := Nat.mul_le_mul_right _ (Nat.div_mul_le_self n 128)
            _ < 2 ^ 64 := hbound)
      rw [hrec]
      congr 2
      have hmod : (n % 128 + 128) % 128 = n % 128 := by omega
      have h3 : (2:Nat) ^ (sh + 7) = 2 ^ sh * 128 := by ring
      rw [hmod, h3]
      nlinarith [Nat.mod_add_div n 128]

theorem read_uvarint_of_ruvE (s : List Nat) (v : Nat) (t : List Nat)
    (h : ruvE s = .ok (v, t)) :
    ∃ hp : t.length < s.length, read_uvarint s = .ok (v, ⟨t, hp⟩) := by
  rw [ruvE, ruvGoE] at h
  cases hr : read_uvarint s with
  | error e => rw [read_uvarint] at hr; rw [hr] at h; exact absurd h (by simp)
  | ok p =>
    obtain ⟨v2, r⟩ := p
    rw [read_uvarint] at hr; rw [hr] at h
    simp only [Except.ok.injEq, Prod.mk.injEq] at h
    obtain ⟨hv, ht⟩ := h
    refine ⟨by rw [← ht]; exact r.property, ?_⟩
    subst hv
    congr 1
    exact Prod.ext rfl (Subtype.ext ht)

theorem sectionWf_cid (e : List Nat) (h : sectionWf e) :
    cid_bytes_len e = .ok (entryCl e) := by
  obtain ⟨-, hc⟩ := h
  unfold cidOk at hc
  cases hcl : cid_bytes_len e with
  | ok cl => rw [entryCl, hcl]
  | error err => rw [hcl] at hc; simp at hc

theorem sectionWf_ne_nil (e : List Nat) (h : sectionWf e) : e ≠ [] := by
  intro he
  have := sectionWf_cid e h
  rw [he] at this
  simp [cid_bytes_len] at this

theorem ruvE_encSection (e : List Nat) (t : List Nat) (hlen : e.length < 2 ^ 64) :
    ruvE (encSection e ++ t) = .ok (e.length, e ++ t) := by
  rw [encSection, List.append_assoc, ruvE]
  have h := uvenc_ruvE 10 e.length 0 0 0 (e ++ t) (by norm_num)
    (lt_of_lt_of_le hlen (by norm_num)) rfl (by simpa using hlen)
  simpa using h

theorem go_step (e t : List Nat) (acc : List (List Nat × List Nat))
    (hwf : sectionWf e) :
    read_until_block_go (encSection e ++ t) acc =
      if is_block_node (entryPayload e) then
        .ok (some (groupOf (acc ++ [(entryCid e, entryPayload e)]) (entryPayload e), t))
      else read_until_block_go t (acc ++ [(entryCid e, entryPayload e)]) := by
  obtain ⟨hp, hread⟩ := read_uvarint_of_ruvE _ _ _ (ruvE_encSection e t hwf.1)
  have hne : e ≠ [] := sectionWf_ne_nil e hwf
  have hlen0 : e.length ≠ 0 := by simpa using hne
  rw [read_until_block_go.eq_def]
  rw [hread]
  simp only []
  rw [dif_neg hlen0]
  rw [if_neg (by simp : ¬ (e ++ t).length < e.length)]
  rw [List.take_left, List.drop_left]
  rw [sectionWf_cid e hwf]
  simp only [groupOf, entryCid, entryPayload]

theorem go_front (fs : List (List Nat)) : ∀ (t : List Nat)
    (acc : List (List Nat × List Nat)),
    (∀ e ∈ fs, sectionWf e ∧ is_block_node (entryPayload e) = false) →
    read_until_block_go (encGroup fs ++ t) acc =
      read_until_block_go t
        (acc ++ fs.map (fun e => (entryCid e, entryPayload e))) := by
  induction fs with
  | nil => intro t acc _; simp [encGroup]
  | cons e fs ih =>
    intro t acc h
    have he := h e (by simp)
    rw [encGroup]
    simp only [List.map_cons, List.flatten_cons, List.append_assoc]
    rw [show (fs.map encSection).flatten = encGroup fs from rfl]
    rw [go_step e _ acc he.1]
    rw [if_neg (by simp [he.2])]
    rw [ih _ _ (fun e2 h2 => h e2 (by simp [h2]))]
    simp

theorem go_group (es : List (List Nat)) (t : List Nat)
    (acc : List (List Nat × List Nat)) (hwf : groupWf es) :
    read_until_block_go (encGroup es ++ t) acc =
      .ok (some (groupOf
        (acc ++ es.map (fun e => (entryCid e, entryPayload e)))
        (entryPayload (es.getLast?.getD [])), t)) := by
  obtain ⟨hne, hsec, hfront, hlast⟩ := hwf
  have hsplit : es.dropLast ++ [es.getLast hne] = es := List.dropLast_append_getLast hne
  have hlastv : es.getLast?.getD [] = es.getLast hne := by
    rw [List.getLast?_eq_getLast es hne]
    rfl
  conv_lhs => rw [← hsplit]
  rw [show encGroup (es.dropLast ++ [es.getLast hne]) =
        encGroup es.dropLast ++ encGroup [es.getLast hne] by
      simp [encGroup]]
  rw [List.append_assoc]
  rw [go_front es.dropLast _ acc (fun e h2 =>
    ⟨hsec e (List.mem_of_mem_dropLast h2), hfront e h2⟩)]
  rw [show encGroup [es.getLast hne] = encSection (es.getLast hne) ++ [] by
      simp [encGroup]]
  rw [List.append_assoc, List.nil_append]
  rw [go_step _ _ _ (hsec _ (List.getLast_mem hne))]
  rw [if_pos (by rw [← hlastv]; exact hlast)]
  rw [hlastv]
  have hl : acc ++ es.dropLast.map (fun e => (entryCid e, entryPayload e)) ++
      [(entryCid (es.getLast hne), entryPayload (es.getLast hne))] =
      acc ++ es.map (fun e => (entryCid e, entryPayload e)) := by
    rw [List.append_assoc]
    congr 1
    rw [show [(entryCid (es.getLast hne), entryPayload (es.getLast hne))] =
        [es.getLast hne].map (fun e => (entryCid e, entryPayload e)) by simp]
    rw [← List.map_append, hsplit]
  rw [hl]

theorem read_groups_archive (gss : List (List (List Nat)))
    (h : ∀ es ∈ gss, groupWf es) :
    read_groups (gss.length + 1) (encArchive gss) =
      gss.map (fun es => .ok (some (groupVal es))) ++ [.ok none] := by
  induction gss with
  | nil =>
    simp [encArchive, read_groups, read_until_block, read_until_block_go,
      read_uvarint, read_uvarint_go]
  | cons es gss ih =>
    have harch : encArchive (es :: gss) = encGroup es ++ encArchive gss := by
      simp [encArchive]
    rw [harch]
    rw [read_groups]
    rw [read_until_block, go_group es _ [] (h es (by simp))]
    simp only [List.length_cons]
    rw [ih (fun es2 h2 => h es2 (by simp [h2]))]
    simp [groupVal]

theorem go_eof_mid (fs : List (List Nat)) (hne : fs ≠ [])
    (h : ∀ e ∈ fs, sectionWf e ∧ is_block_node (entryPayload e) = false) :
    read_until_block (encGroup fs) = .error (.unexpectedEof "EOF mid group") := by
  rw [read_until_block, show encGroup fs = encGroup fs ++ [] by simp]
  rw [go_front fs [] [] h]
  rw [read_until_block_go.eq_def]
  simp only [read_uvarint, read_uvarint_go]
  rw [if_neg]
  simp [hne]

theorem go_short_payload (size : Nat) (s1 : List Nat) (h0 : size ≠ 0)
    (hb : size < 2 ^ 64) (hs : s1.length < size) :
    read_until_block (uvarintEnc 10 size ++ s1) = .ok none := by
  have hruv : ruvE (uvarintEnc 10 size ++ s1) = .ok (size, s1) := by
    have h := uvenc_ruvE 10 size 0 0 0 s1 (by norm_num)
      (lt_of_lt_of_le hb (by norm_num)) rfl (by simpa using hb)
    simpa using h
  obtain ⟨hp, hread⟩ := read_uvarint_of_ruvE _ _ _ hruv
  rw [read_until_block, read_until_block_go.eq_def, hread]
  simp only []
  rw [dif_neg h0]
  rw [if_pos hs]

/-- C6 counterexample: an archive holding one complete one-section group
followed by a section whose declared size 5 exceeds the 2 remaining bytes —
truncation inside a section's payload. The reader delivers the first group and
then reports a clean end of stream (`Ok(None)`), not an error, refuting the
claim that truncation inside a payload is fatal. -/
theorem C6_counterexample :
    read_groups 2 [6, 1, 0, 0, 0, 130, 2, 5, 9, 9] =
      [.ok (some { payloads := [[130, 2]],
                   cid_map := [([1, 0, 0, 0], 0)],
                   block_payload := [130, 2] }), .ok none] ∧
    (¬ ∃ e, read_groups 2 [6, 1, 0, 0, 0, 130, 2, 5, 9, 9] =
      [.ok (some { payloads := [[130, 2]],
                   cid_map := [([1, 0, 0, 0], 0)],
                   block_payload := [130, 2] }), .error e]) := by
  constructor
  · simp [read_groups, read_until_block, read_until_block_go, read_uvarint,
      read_uvarint_go, cid_bytes_len, read_uvarint_slice, read_uvarint_slice_go,
      is_block_node]
  · rintro ⟨e, he⟩
    rw [show read_groups 2 [6, 1, 0, 0, 0, 130, 2, 5, 9, 9] =
        [.ok (some { payloads := [[130, 2]],
                     cid_map := [([1, 0, 0, 0], 0)],
                     block_payload := [130, 2] }), .ok none] by
      simp [read_groups, read_until_block, read_until_block_go, read_uvarint,
        read_uvarint_go, cid_bytes_len, read_uvarint_slice, read_uvarint_slice_go,
        is_block_node]] at he
    simp at he

/-- C6 amended: (1) an archive that is a concatenation of N well-formed
complete groups yields exactly N successful group deliveries followed by one
clean end-of-stream signal; (2) truncating the stream at a section-size
varint after at least one section of the current group was read yields the
error `EOF mid group`; but (3) truncating inside a section's payload is
reported as a clean end of stream (`Ok(None)`), not as an error. -/
theorem C6_amended :
    (∀ gss : List (List (List Nat)), (∀ es ∈ gss, groupWf es) →
      read_groups (gss.length + 1) (encArchive gss) =
        gss.map (fun es => .ok (some (groupVal es))) ++ [.ok none]) ∧
    (∀ fs : List (List Nat), fs ≠ [] →
      (∀ e ∈ fs, sectionWf e ∧ is_block_node (entryPayload e) = false) →
      read_until_block (encGroup fs) = .error (.unexpectedEof "EOF mid group")) ∧
    (∀ (size : Nat) (s1 : List Nat), size ≠ 0 → size < 2 ^ 64 →
      s1.length < size →
      read_until_block (uvarintEnc 10 size ++ s1) = .ok none) :=
  ⟨read_groups_archive, go_eof_mid, go_short_payload⟩

/-- C6 witness: the amended theorem applied to a concrete one-group archive,
a concrete group cut at the next size varint, and a concrete short payload. -/
theorem C6_amended_witness :
    read_groups 2 (encArchive [[[1, 0, 0, 0, 130, 2]]]) =
      [.ok (some (groupVal [[1, 0, 0, 0, 130, 2]])), .ok none] ∧
    read_until_block (encGroup [[1, 0, 0, 0, 131, 3]]) =
      .error (.unexpectedEof "EOF mid group") ∧
    read_until_block (uvarintEnc 10 5 ++ [9, 9]) = .ok none :=
  ⟨C6_amended.1 [[[1, 0, 0, 0, 130, 2]]] (by decide),
   C6_amended.2.1 [[1, 0, 0, 0, 131, 3]] (by decide) (by decide),
   C6_amended.2.2 5 [9, 9] (by decide) (by decide) (by decide)⟩


set_option maxRecDepth 40000
set_option maxHeartbeats 3000000

/-- Evaluation fact: the hardcoded compute-budget base58 string decodes to
the 32-byte key `CB_KEY`. -/
theorem cbpk_parse : pubkey_from_str CB_PK = some CB_KEY := by decide

/-- C10: `parse_logs` resolves the hardcoded compute-budget key first and
errors (panics) whenever it is absent from the index, for any input lines;
and for each of the six line shapes `Program <pk> invoke [n]`,
`Program <pk> success`, `Program <pk> failed: ...`, `Program <pk> log: ...`,
`Program <pk> is not deployed` and `Program return: <pk> ...`, a `<pk>` that
parses as a pubkey but is absent from the index makes `parse_logs` error
(panic) instead of producing an event stream. -/
theorem C10_parse_logs_panics :
    (∀ (index : KeyIdx) (lines : List (List Char)), index CB_KEY = none →
      parse_logs index lines =
        .error "lookup_unchecked: key absent from registry") ∧
    pubkey_from_str CB_PK = some CB_KEY ∧
    (∀ (index : KeyIdx) (cb : Nat) (tk : List Nat),
      index CB_KEY = some cb →
      pubkey_from_str TOKEN_STR_ID = some tk →
      index tk = none →
      parse_logs index [lc "Program " ++ TOKEN_STR_ID ++ lc " invoke [1]"] =
        .error "lookup_unchecked: key absent from registry" ∧
      parse_logs index [lc "Program " ++ TOKEN_STR_ID ++ lc " success"] =
        .error "lookup_unchecked: key absent from registry" ∧
      parse_logs index [lc "Program " ++ TOKEN_STR_ID ++ lc " failed: access violation"] =
        .error "lookup_unchecked: key absent from registry" ∧
      parse_logs index [lc "Program " ++ TOKEN_STR_ID ++ lc " log: hello"] =
        .error "lookup_unchecked: key absent from registry" ∧
      parse_logs index [lc "Program " ++ TOKEN_STR_ID ++ lc " is not deployed"] =
        .error "lookup_unchecked: key absent from registry" ∧
      parse_logs index [lc "Program return: " ++ TOKEN_STR_ID ++ lc " AQ=="] =
        .error "lookup_unchecked: key absent from registry") := by
  refine ⟨?_, cbpk_parse, ?_⟩
  · intro index lines hnone
    rw [parse_logs, lookupPidOrPanic, cbpk_parse]
    simp only []
    rw [hnone]
  · intro index cb tk hcb hpk hk
    have h1 : lookupPidOrPanic index TOKEN_STR_ID =
        .error "lookup_unchecked: key absent from registry" := by
      rw [lookupPidOrPanic, hpk]
      simp only []
      rw [hk]
    simp only [TOKEN_STR_ID, lc] at h1
    refine ⟨?_, ?_, ?_, ?_, ?_, ?_⟩ <;>
    · rw [parse_logs, lookupPidOrPanic, cbpk_parse]
      simp only []
      rw [hcb]
      simp only []
      simp only [parseLogsGo, parseLogLine]
      simp +decide [tryArm, h1, TOKEN_STR_ID, lc, systemProgramLogParse, trimEndL,
        trimStartL, trimL, stripPreL, stripSufL, findSubL, splitOnceL, findCharL,
        rfindCharL, splitWsGo, splitWsL, removeCharL, toLowerAsciiL,
        trimEndMatchesL, isDecDigit, rustParseUnsigned, rustParseU32,
        rustParseUsize, hexDigitVal, rustParseHexU32, rsIsWhitespace,
        parseU64Commas, parsePubkeyId, parseBetween, parseDebugAddressToPubkeyId,
        parseCustomProgramErrorReason, parseProgramLogErrorPayload,
        parseAnchorInstruction, parseErrorFields, parseAnchorError,
        parseProgramLogNoId, tryParseProgramLogWithTable,
        parseProgramLogForProgram, parseU32Commas, parseConsumed,
        classifyFailedReason, decodeBase64Array, stPush, dtPush]

/-- C10 witness: the theorem applied to an all-absent index with no lines,
and to an index holding only the compute-budget key with a concrete
`Program <pk> success` line naming the SPL-Token program. -/
theorem C10_parse_logs_panics_witness :
    parse_logs (fun _ => none) [] =
      .error "lookup_unchecked: key absent from registry" ∧
    parse_logs cbOnlyIdx [lc "Program " ++ TOKEN_STR_ID ++ lc " success"] =
      .error "lookup_unchecked: key absent from registry" :=
  ⟨C10_parse_logs_panics.1 (fun _ => none) [] rfl,
   (C10_parse_logs_panics.2.2 cbOnlyIdx 1
      ((pubkey_from_str TOKEN_STR_ID).getD [])
      (by decide) (by decide) (by decide)).2.1⟩

/-- C8 counterexample: the token error variant `insufficient funds` renders as
`Program log: Error: insufficient funds`, which re-parses as the generic
`ProgramLogError` event with the message pushed to the string table — not the
original event; likewise the alias constructor
`createAccountAccountAlreadyInUse` re-parses as its twin
`createAccountAlreadyInUse`. Render followed by parse is not the identity. -/
theorem C8_counterexample :
    render_logs (mkS [.programLog (.token (.errorLog .insufficientFunds))] [] []) rtStore =
      .ok [lc "Program log: Error: insufficient funds"] ∧
    parse_logs rtIdx [lc "Program log: Error: insufficient funds"] =
      .ok (mkS [.programLogError 0] [lc "insufficient funds"] []) ∧
    mkS [.programLogError 0] [lc "insufficient funds"] [] ≠
      mkS [.programLog (.token (.errorLog .insufficientFunds))] [] [] ∧
    roundTrip rtIdx rtStore (mkS [.system (.createAccountAccountAlreadyInUse 1)] [] []) =
      .ok (mkS [.system (.createAccountAlreadyInUse 1)] [] []) ∧
    SystemProgramLog.createAccountAlreadyInUse 1 ≠ .createAccountAccountAlreadyInUse 1 :=
  ⟨rfl, rfl, by decide, rfl, by decide⟩

/-- C8 amended: render followed by re-parse is the identity on the canonical
representative streams of `rtCandidates` (one per event shape, with consistent
string/data tables and a registry holding the referenced keys); it is not the
identity in general, because `Error:`-canonical program-log variants and alias
constructors re-parse to different constructors. -/
theorem C8_amended :
    rtCandidates.map (roundTrip rtIdx rtStore) = rtCandidates.map Except.ok := rfl
